import Mathlib

/-!
# Verification of `smtpd-filter-spamclass` (filter/filter.go)

A shallow embedding of the OpenSMTPD spam-class filter: the config handshake,
the registration phase, the report/filter event dispatcher, the session/message
store and the header-rewrite engine (`filterDataLine`).

Go strings are modelled as Lean `String`s and all Go string operations
(`strings.Split`, `strings.Cut`, `strings.HasPrefix`, `strings.TrimSpace`,
byte slicing) are re-implemented over the underlying character list so that
every definition is executable and easy to reason about.  Go's `log.Fatal`
(process termination) is modelled as the `Except.error` case.

External collaborators are parameters of the embedding:
* `g`  — `classes.SpamClasses.GetClass` (the classification client, an
  external module per the repository's imports);
* `pf` — `strconv.ParseFloat (·, 32)` (Go standard library); the spam-score
  type `S` is kept abstract because no theorem depends on float arithmetic;
* `bf` — the Go `regexp` engine applied to `EMAIL_ADDRESS_BRACKET_PATTERN`
  (`FindStringSubmatch` returning the captured group, if any).  The anchored
  full-match pattern `EMAIL_ADDRESS_PATTERN` is deterministic and is embedded
  concretely as `emailMatch`.

Log output and the `Name`/`verbose` fields of the Go `Filter` struct are not
modelled (they affect only logging, never control flow or emitted protocol
lines).
-/

set_option autoImplicit false

namespace SpamClass

/-- Go `unicode.IsSpace`: the Unicode White_Space code points. -/
def isSpaceGo (c : Char) : Bool :=
  let n := c.toNat
  (9 ≤ n && n ≤ 13) || n == 32 || n == 133 || n == 160 || n == 0x1680 ||
  (0x2000 ≤ n && n ≤ 0x200A) || n == 0x2028 || n == 0x2029 || n == 0x202F ||
  n == 0x205F || n == 0x3000

/-- `hasPrefixL p s`: the character list `p` is a prefix of `s`
(Go `strings.HasPrefix` on the underlying text). -/
def hasPrefixL : List Char → List Char → Bool
  | [], _ => true
  | _ :: _, [] => false
  | p :: ps, c :: cs => p == c && hasPrefixL ps cs

/-- Go `strings.HasPrefix p s` (argument order: prefix first). -/
def hasPrefixGo (p s : String) : Bool := hasPrefixL p.data s.data

/-- Go `strings.TrimSpace line == ""`: every character is white space. -/
def isBlankGo (s : String) : Bool := s.data.all isSpaceGo

/-- Go `strings.TrimSpace`. -/
def goTrim (s : String) : String :=
  ⟨((s.data.dropWhile isSpaceGo).reverse.dropWhile isSpaceGo).reverse⟩

/-- Split a character list at every occurrence of `sep`
(Go `strings.Split` with a one-character separator; never returns `[]`,
and `[""]` on empty input, exactly like Go). -/
def splitOnChar (sep : Char) : List Char → List (List Char)
  | [] => [[]]
  | c :: cs =>
    if c = sep then [] :: splitOnChar sep cs
    else
      match splitOnChar sep cs with
      | [] => [[c]]
      | t :: ts => (c :: t) :: ts

/-- Go `strings.Split s sep` for a one-character separator. -/
def goSplit (sep : Char) (s : String) : List String :=
  (splitOnChar sep s.data).map (fun cs => (⟨cs⟩ : String))

/-- Split a character list at the first occurrence of `sep`:
`(before, after, found)` (helper for Go `strings.Cut`). -/
def cutList (sep : Char) : List Char → List Char × List Char × Bool
  | [] => ([], [], false)
  | c :: cs =>
    if c = sep then ([], cs, true)
    else
      let r := cutList sep cs
      (c :: r.1, r.2.1, r.2.2)

/-- Go `strings.Cut s sep` for a one-character separator:
`(before, after, found)`; `(s, "", false)` when `sep` does not occur. -/
def cutChar (sep : Char) (s : String) : String × String × Bool :=
  let r := cutList sep s.data
  (⟨r.1⟩, ⟨r.2.1⟩, r.2.2)

/-- Go map lookup on an association list (keys are kept unique by
`mapSet`/`mapDel`, mirroring a Go `map[string]T`). -/
def mapFind {α : Type} (k : String) : List (String × α) → Option α
  | [] => none
  | (k', v) :: rest => if k' = k then some v else mapFind k rest

/-- Go map assignment `m[k] = v`: replace the binding if present, else append. -/
def mapSet {α : Type} (k : String) (v : α) : List (String × α) → List (String × α)
  | [] => [(k, v)]
  | (k', v') :: rest =>
    if k' = k then (k', v) :: rest else (k', v') :: mapSet k v rest

/-- Go `delete(m, k)`. -/
def mapDel {α : Type} (k : String) : List (String × α) → List (String × α)
  | [] => []
  | (k', v') :: rest => if k' = k then rest else (k', v') :: mapDel k rest

/-- `log.Fatal` paths are modelled as `Except.error`; `isFatal` observes them. -/
def isFatal {α : Type} : Except String α → Bool
  | .error _ => true
  | .ok _ => false

/-- Character class `[a-zA-Z0-9._%+-]` of `EMAIL_ADDRESS_PATTERN`. -/
def localChar (c : Char) : Bool :=
  c.isAlpha || c.isDigit || c == '.' || c == '_' || c == '%' || c == '+' || c == '-'

/-- Character class `[a-zA-Z0-9.-]` of `EMAIL_ADDRESS_PATTERN`. -/
def domainChar (c : Char) : Bool :=
  c.isAlpha || c.isDigit || c == '.' || c == '-'

/-- The domain part `[a-zA-Z0-9.-]+\.[a-zA-Z]{2,}` (anchored): the text after
the last `'.'` is two or more letters and the nonempty text before it consists
of domain characters.  Because `[a-zA-Z]{2,}` must reach the end of the string
and cannot contain `'.'`, the dot consumed by `\.` is necessarily the last one,
so this is equivalent to the anchored regular expression. -/
def domainMatch (d : String) : Bool :=
  let r := d.data.reverse
  let t := r.takeWhile (fun c => c != '.')
  match r.drop t.length with
  | [] => false
  | _ :: p =>
    decide (2 ≤ t.length) && t.all Char.isAlpha && decide (p ≠ []) && p.all domainChar

/-- `EMAIL_ADDRESS_PATTERN.MatchString`: the anchored full match
`^[a-zA-Z0-9._%+-]+@[a-zA-Z0-9.-]+\.[a-zA-Z]{2,}$`.  The local part never
contains `'@'`, so the split at the first `'@'` is exactly the split the
regular expression performs. -/
def emailMatch (s : String) : Bool :=
  let r := cutList '@' s.data
  r.2.2 && decide (r.1 ≠ []) && r.1.all localChar && domainMatch ⟨r.2.1⟩

/-- `Filter.parseEmailAddress` (filter.go): trim, replace by the bracket
pattern's captured group when `FindStringSubmatch` succeeds (`bf`), then
require a full match of `EMAIL_ADDRESS_PATTERN`. -/
def parseEmailAddress (bf : String → Option String) (address : String) :
    Option String :=
  let parsed := goTrim address
  let parsed :=
    match bf parsed with
    | some g => g
    | none => parsed
  if emailMatch parsed then some parsed else none

/-- The `Message` struct of filter.go; the score type `S` abstracts `float32`. -/
structure Message (S : Type) where
  Id : String
  From : List String
  To : List String
  EnvelopeTo : List String
  EnvelopeFrom : List String
  State : String
  InHeader : Bool
  SpamScore : S
  SpamScoreSet : Bool
  deriving DecidableEq

/-- `NewMessage` (filter.go): `SpamScore`/`SpamScoreSet` get Go zero values. -/
def NewMessage {S : Type} [Inhabited S] (mid : String) : Message S :=
  { Id := mid, To := [], From := [], EnvelopeTo := [], EnvelopeFrom := [],
    State := "init", InHeader := true, SpamScore := default,
    SpamScoreSet := false }

/-- The `Session` struct of filter.go. -/
structure Session (S : Type) where
  Id : String
  Messages : List (String × Message S)
  RDNS : String
  Confirmed : Bool
  Remote : String
  Local : String
  AuthorizedUser : String
  DataMessage : String
  deriving DecidableEq

/-- `NewSession` (filter.go): `AuthorizedUser`/`DataMessage` get zero values. -/
def NewSession {S : Type} (sid rdns : String) (confirmed : Bool)
    (remote localAddr : String) : Session S :=
  { Id := sid, RDNS := rdns, Confirmed := confirmed, Remote := remote,
    Local := localAddr, Messages := [], AuthorizedUser := "",
    DataMessage := "" }

/-- The `Filter` struct of filter.go (protocol-relevant fields). -/
structure Filter (S : Type) where
  Sessions : List (String × Session S)
  Protocol : String
  Subsystem : String
  reports : List String
  filters : List String
  deriving DecidableEq

/-- `NewFilter` (filter.go): empty session store and the fixed report/filter
event registration lists. -/
def newFilter {S : Type} : Filter S :=
  { Sessions := [], Protocol := "", Subsystem := "",
    reports := ["link-connect", "link-disconnect", "link-auth", "tx-reset",
                "tx-begin", "tx-mail", "tx-rcpt", "tx-data", "tx-commit",
                "tx-rollback"],
    filters := ["data-line"] }

variable {S : Type} [Inhabited S]

/-- `Filter.getSession`: fatal when the session identifier is unknown. -/
def getSession (f : Filter S) (sid : String) : Except String (Session S) :=
  match mapFind sid f.Sessions with
  | none => .error ("unknown session: " ++ sid)
  | some session => .ok session

/-- `Filter.getSessionMessage`: fatal when the session or the message
identifier is unknown. -/
def getSessionMessage (f : Filter S) (sid mid : String) :
    Except String (Session S × Message S) :=
  match getSession f sid with
  | .error e => .error e
  | .ok session =>
    match mapFind mid session.Messages with
    | none => .error ("session " ++ sid ++ " unknown messageId: " ++ mid)
    | some message => .ok (session, message)

/-- `Filter.linkConnect`: duplicate session identifiers are fatal. -/
def linkConnect (f : Filter S) (sid rdns confirmed src dst : String) :
    Except String (Filter S) :=
  match mapFind sid f.Sessions with
  | some _ => .error ("existing session: " ++ sid)
  | none =>
    let sessions := mapSet sid (NewSession sid rdns (confirmed == "pass") src dst) f.Sessions
    .ok { f with Sessions := sessions }

/-- `Filter.linkDisconnect`. -/
def linkDisconnect (f : Filter S) (sid : String) : Except String (Filter S) :=
  match getSession f sid with
  | .error e => .error e
  | .ok _ => .ok { f with Sessions := mapDel sid f.Sessions }

/-- `Filter.linkAuth`: records the username only on `result == "pass"`. -/
def linkAuth (f : Filter S) (sid result username : String) :
    Except String (Filter S) :=
  match getSession f sid with
  | .error e => .error e
  | .ok session =>
    if result == "pass" then
      let sessions := mapSet sid { session with AuthorizedUser := username } f.Sessions
      .ok { f with Sessions := sessions }
    else .ok f

/-- `Filter.txReset`: requires an existing message, then replaces it. -/
def txReset (f : Filter S) (sid mid : String) : Except String (Filter S) :=
  match getSessionMessage f sid mid with
  | .error e => .error e
  | .ok (session, _) =>
    let session1 := { session with Messages := mapSet mid (NewMessage mid) session.Messages }
    .ok { f with Sessions := mapSet sid session1 f.Sessions }

/-- `Filter.txBegin`: a duplicate message identifier is fatal. -/
def txBegin (f : Filter S) (sid mid : String) : Except String (Filter S) :=
  match getSession f sid with
  | .error e => .error e
  | .ok session =>
    match mapFind mid session.Messages with
    | some _ => .error ("existing message: " ++ mid)
    | none =>
      let session1 := { session with Messages := mapSet mid (NewMessage mid) session.Messages }
      .ok { f with Sessions := mapSet sid session1 f.Sessions }

/-- `Filter.txMail`: on `result == "ok"` append a parsed envelope-from
address; an address parse failure only logs. -/
def txMail (bf : String → Option String) (f : Filter S)
    (sid mid result address : String) : Except String (Filter S) :=
  match getSessionMessage f sid mid with
  | .error e => .error e
  | .ok (session, message) =>
    if result == "ok" then
      match parseEmailAddress bf address with
      | some a =>
        let message1 := { message with EnvelopeFrom := message.EnvelopeFrom ++ [a] }
        let session1 := { session with Messages := mapSet mid message1 session.Messages }
        .ok { f with Sessions := mapSet sid session1 f.Sessions }
      | none => .ok f
    else .ok f

/-- `Filter.txRcpt`: on `result == "ok"` append a parsed envelope-to
address; an address parse failure only logs. -/
def txRcpt (bf : String → Option String) (f : Filter S)
    (sid mid result address : String) : Except String (Filter S) :=
  match getSessionMessage f sid mid with
  | .error e => .error e
  | .ok (session, message) =>
    if result == "ok" then
      match parseEmailAddress bf address with
      | some a =>
        let message1 := { message with EnvelopeTo := message.EnvelopeTo ++ [a] }
        let session1 := { session with Messages := mapSet mid message1 session.Messages }
        .ok { f with Sessions := mapSet sid session1 f.Sessions }
      | none => .ok f
    else .ok f

/-- `Filter.txData`: on `result == "ok"` record the session's active data
message and re-enter the header phase. -/
def txData (f : Filter S) (sid mid result : String) :
    Except String (Filter S) :=
  match getSessionMessage f sid mid with
  | .error e => .error e
  | .ok (session, message) =>
    if result == "ok" then
      let message1 := { message with State := "data", InHeader := true }
      let session1 := { session with DataMessage := mid, Messages := mapSet mid message1 session.Messages }
      .ok { f with Sessions := mapSet sid session1 f.Sessions }
    else .ok f

/-- `Filter.txCommit` (the size argument is only logged). -/
def txCommit (f : Filter S) (sid mid _size : String) :
    Except String (Filter S) :=
  match getSessionMessage f sid mid with
  | .error e => .error e
  | .ok (session, message) =>
    let session1 := { session with Messages := mapSet mid { message with State := "commit" } session.Messages }
    .ok { f with Sessions := mapSet sid session1 f.Sessions }

/-- `Filter.txRollback`. -/
def txRollback (f : Filter S) (sid mid : String) : Except String (Filter S) :=
  match getSessionMessage f sid mid with
  | .error e => .error e
  | .ok (session, message) =>
    let session1 := { session with Messages := mapSet mid { message with State := "rollback" } session.Messages }
    .ok { f with Sessions := mapSet sid session1 f.Sessions }

/-- `Filter.parseSpamScore`: split the whole line on single spaces, parse
field 1 with `pf` (ParseFloat); fewer than two fields or a parse error is
fatal. -/
def parseSpamScore (pf : String → Option S) (line : String) :
    Except String S :=
  let fields := goSplit ' ' line
  if fields.length < 2 then .error "spam score parse failed"
  else
    match pf fields[1]! with
    | none => .error "invalid spam score syntax"
    | some score => .ok score

/-- `Filter.filterDataLine` (filter.go 496-593): the in-header line
classifier.  The Go `switch` with `case` guards evaluated top to bottom is
an if-chain; `g` is `Classes.GetClass`. -/
def filterDataLine (g : List String → S → String) (pf : String → Option S)
    (bf : String → Option String) (message : Message S) (line : String) :
    Except String (Message S × List String) :=
  if hasPrefixGo "X-Spam-Score: " line then
    match parseSpamScore pf line with
    | .error e => .error e
    | .ok score =>
      .ok ({ message with SpamScore := score, SpamScoreSet := true }, [line])
  else if hasPrefixGo "X-Spam: " line then
    .ok (message, [])
  else if hasPrefixGo "X-Spam-Class: " line then
    .ok (message, [])
  else if hasPrefixGo "To: " line then
    let value := (cutChar ' ' line).2.1
    match parseEmailAddress bf value with
    | none => .ok (message, [line])
    | some address => .ok ({ message with To := message.To ++ [address] }, [line])
  else if hasPrefixGo "From: " line then
    let value := (cutChar ' ' line).2.1
    match parseEmailAddress bf value with
    | none => .ok (message, [line])
    | some address =>
      .ok ({ message with From := message.From ++ [address] }, [line])
  else if isBlankGo line then
    if message.SpamScoreSet = false then .ok (message, [line])
    else if message.To.length < 1 then .ok (message, [line])
    else if message.EnvelopeTo.length < 1 then .ok (message, [line])
    else
      let cutAt := cutChar '@' message.To[0]!
      if cutAt.2.2 = false then .ok (message, [line])
      else
        let address := (cutChar '+' cutAt.1).1 ++ "@" ++ cutAt.2.1
        let spamClass := g [address] message.SpamScore
        let output :=
          if spamClass != "" then ("X-Spam-Class: " ++ spamClass) :: [line]
          else [line]
        let spamState := if spamClass == "spam" then "yes" else "no"
        .ok (message, ("X-Spam: " ++ spamState) :: output)
  else .ok (message, [line])

/-- The classification address of filter.go 563-571: local part of the first
To address up to the first `'+'`, recombined with the domain after the first
`'@'`. -/
def derivedAddress (to0 : String) : String :=
  let cutAt := cutChar '@' to0
  (cutChar '+' cutAt.1).1 ++ "@" ++ cutAt.2.1

/-- The boundary batch of filter.go 573-590 for class label `spamClass`:
`X-Spam` first, then `X-Spam-Class` when the label is nonempty, then the
boundary line itself. -/
def mkBoundary (spamClass line : String) : List String :=
  ("X-Spam: " ++ (if spamClass == "spam" then "yes" else "no")) ::
    ((if spamClass != "" then ["X-Spam-Class: " ++ spamClass] else []) ++ [line])

/-- `Filter.dataLine` (filter.go 440-459): resolve the session's active data
message, run `filterDataLine` while in-header (clearing `InHeader` first on a
blank line), and emit one `filter-dataline` response per produced line. -/
def dataLine (g : List String → S → String) (pf : String → Option S)
    (bf : String → Option String) (f : Filter S) (sid token line : String) :
    Except String (Filter S × List String) :=
  match getSession f sid with
  | .error e => .error e
  | .ok session =>
    match getSessionMessage f sid session.DataMessage with
    | .error e => .error e
    | .ok (_, message) =>
      if message.InHeader then
        let message1 :=
          if isBlankGo line then { message with InHeader := false } else message
        match filterDataLine g pf bf message1 line with
        | .error e => .error e
        | .ok (message2, lines) =>
          let session1 := { session with Messages := mapSet session.DataMessage message2 session.Messages }
          .ok ({ f with Sessions := mapSet sid session1 f.Sessions },
               lines.map (fun l => "filter-dataline|" ++ sid ++ "|" ++ token ++ "|" ++ l))
      else
        .ok (f, ["filter-dataline|" ++ sid ++ "|" ++ token ++ "|" ++ line])

/-- `lastAtom` (filter.go 222-229): the text of `line` after the first
`field` atoms and their separators, taken from the original line so embedded
`'|'` characters survive. -/
def lastAtom (line : String) (atoms : List String) (field : Nat) : String :=
  let index := (((atoms.take field).map (fun a => a.data.length + 1)).foldl (· + ·) 0)
  ⟨line.data.drop index⟩

/-- Lift a report handler result to the main loop's result type (report
events emit no output lines). -/
def withNoOutput : Except String (Filter S) → Except String (Filter S × List String)
  | .error e => .error e
  | .ok f => .ok (f, [])

/-- One iteration of `Filter.Run`'s main loop (filter.go 239-292), given the
already split `atoms` of `line`.  Go's `switch` statements become if-chains;
`requireArgs` becomes a length test; the unconditional `atoms[FID_TOKEN]`
read in the `filter` arm is an index-out-of-range panic when only six atoms
are present, modelled as an error. -/
def runAtoms (g : List String → S → String) (pf : String → Option S)
    (bf : String → Option String) (f : Filter S) (line : String)
    (atoms : List String) : Except String (Filter S × List String) :=
  if atoms.length < 6 then .error ("missing atoms: " ++ line)
  else if atoms[0]! = "report" then
    if atoms[4]! = "link-connect" then
      if atoms.length < 10 then .error "link-connect: missing args"
      else withNoOutput (linkConnect f atoms[5]! atoms[6]! atoms[7]! atoms[8]! atoms[9]!)
    else if atoms[4]! = "link-disconnect" then withNoOutput (linkDisconnect f atoms[5]!)
    else if atoms[4]! = "link-auth" then
      if atoms.length < 8 then .error "link-auth: missing args"
      else withNoOutput (linkAuth f atoms[5]! atoms[6]! atoms[7]!)
    else if atoms[4]! = "tx-reset" then
      if atoms.length < 7 then .error "tx-reset: missing args"
      else withNoOutput (txReset f atoms[5]! atoms[6]!)
    else if atoms[4]! = "tx-begin" then
      if atoms.length < 7 then .error "tx-begin: missing args"
      else withNoOutput (txBegin f atoms[5]! atoms[6]!)
    else if atoms[4]! = "tx-mail" then
      if atoms.length < 9 then .error "tx-mail: missing args"
      else withNoOutput (txMail bf f atoms[5]! atoms[6]! atoms[7]! atoms[8]!)
    else if atoms[4]! = "tx-rcpt" then
      if atoms.length < 9 then .error "tx-rcpt: missing args"
      else withNoOutput (txRcpt bf f atoms[5]! atoms[6]! atoms[7]! atoms[8]!)
    else if atoms[4]! = "tx-data" then
      if atoms.length < 8 then .error "tx-data: missing args"
      else withNoOutput (txData f atoms[5]! atoms[6]! atoms[7]!)
    else if atoms[4]! = "tx-commit" then
      if atoms.length < 8 then .error "tx-commit: missing args"
      else withNoOutput (txCommit f atoms[5]! atoms[6]! atoms[7]!)
    else if atoms[4]! = "tx-rollback" then
      if atoms.length < 7 then .error "tx-rollback: missing args"
      else withNoOutput (txRollback f atoms[5]! atoms[6]!)
    else .ok (f, [])
  else if atoms[0]! = "filter" then
    if atoms.length ≤ 6 then .error "panic: index out of range"
    else
      if atoms[4]! = "data-line" then
        if atoms.length < 8 then .error "data-line: missing args"
        else dataLine g pf bf f atoms[5]! atoms[6]! (lastAtom line atoms 7)
      else .ok (f, [])
  else .error ("unexpected input: " ++ line)

/-- One iteration of `Filter.Run`'s main loop on a raw input line. -/
def runLine (g : List String → S → String) (pf : String → Option S)
    (bf : String → Option String) (f : Filter S) (line : String) :
    Except String (Filter S × List String) :=
  runAtoms g pf bf f line (goSplit '|' line)

/-- `Filter.Run`'s main loop over a whole input, accumulating output lines. -/
def runLines (g : List String → S → String) (pf : String → Option S)
    (bf : String → Option String) (f : Filter S) :
    List String → Except String (Filter S × List String)
  | [] => .ok (f, [])
  | line :: rest =>
    match runLine g pf bf f line with
    | .error e => .error e
    | .ok (f1, out1) =>
      match runLines g pf bf f1 rest with
      | .error e => .error e
      | .ok (f2, out2) => .ok (f2, out1 ++ out2)

/-- `Filter.Config` (filter.go 160-184): consume handshake lines up to the
first line whose second field is `ready`, recording protocol and subsystem;
fewer than two fields is fatal; a missing third field on a
`protocol`/`subsystem` line is an index-out-of-range panic; end of stream
without the ready marker is fatal; any other line is ignored. -/
def configLoop (f : Filter S) : List String → Except String (Filter S × List String)
  | [] => .error "config failure"
  | line :: rest =>
    let fields := goSplit '|' line
    if fields.length < 2 then .error ("unexpected config line: " ++ line)
    else if fields[1]! = "protocol" then
      if fields.length < 3 then .error "panic: index out of range"
      else configLoop { f with Protocol := fields[2]! } rest
    else if fields[1]! = "subsystem" then
      if fields.length < 3 then .error "panic: index out of range"
      else configLoop { f with Subsystem := fields[2]! } rest
    else if fields[1]! = "ready" then .ok (f, rest)
    else configLoop f rest

/-- `Filter.Register` (filter.go 186-214): one `register|report` line per
report event, then one `register|filter` line per filter event, then
`register|ready`. -/
def registerLines (f : Filter S) : List String :=
  (f.reports.map (fun n => "register|report|" ++ f.Subsystem ++ "|" ++ n)) ++
  (f.filters.map (fun n => "register|filter|" ++ f.Subsystem ++ "|" ++ n)) ++
  ["register|ready"]

/-- `barJoin fields rest`: the wire line `f₁|f₂|…|fₙ|rest` — the protocol's
field concatenation, used to state theorems about composed event lines. -/
def barJoin : List String → String → String
  | [], rest => rest
  | a :: as, rest => a ++ "|" ++ barJoin as rest

/-- Numeric value of a decimal digit character. -/
def digitVal (c : Char) : Nat := c.toNat - 48

/-- Parse a nonempty all-digit character list as a natural number. -/
def parseDigits (cs : List Char) : Option Nat :=
  if cs.isEmpty then none
  else if cs.all Char.isDigit then
    some (cs.foldl (fun acc c => acc * 10 + digitVal c) 0)
  else none

/-- Model of Go `strconv.ParseFloat` restricted to plain decimal numerals
`[+-]?digits[.digits]` (the only shapes these theorems evaluate; exponents,
hex floats and `Inf`/`NaN` are outside this model).  The parsed value is
represented exactly as a pair `(mantissa, scale)` denoting
`mantissa / 10 ^ scale` (the `float32` rounding is abstracted away; the
score is only ever handed opaquely to the classification client).  In
particular `""` and any non-numeral are rejected, as in Go. -/
def parseDecimal (s : String) : Option (Int × Nat) :=
  let signAndDigits : Bool × List Char :=
    match s.data with
    | '-' :: rest => (true, rest)
    | '+' :: rest => (false, rest)
    | cs => (false, cs)
  let cut := cutList '.' signAndDigits.2
  if cut.2.2 then
    match parseDigits cut.1, parseDigits cut.2.1 with
    | some n, some m =>
      let mant : Int := ((n * 10 ^ cut.2.1.length + m : Nat) : Int)
      some (if signAndDigits.1 then -mant else mant, cut.2.1.length)
    | _, _ => none
  else
    match parseDigits cut.1 with
    | some n => some (if signAndDigits.1 then -(n : Int) else (n : Int), 0)
    | none => none

/-- A concrete classification client used to instantiate witnesses: class
`spam` at score 10 and above, `ham` below (one possible behaviour of the
external `classes.SpamClasses.GetClass`). -/
def gW : List String → Int × Nat → String :=
  fun _ score => if 10 * (10 : Int) ^ score.2 ≤ score.1 then "spam" else "ham"

/-- The bracket regular expression `^.*<(...)>.*$` applied to a string that
contains no `'<'` never matches, so on such inputs Go's
`FindStringSubmatch` returns nil: the witnesses only ever parse bracket-free
addresses, for which `fun _ => none` is the engine's exact behaviour. -/
def bfW : String → Option String := fun _ => none

/-! ## Concrete states used by the witnesses -/

instance {ε α : Type} [DecidableEq ε] [DecidableEq α] : DecidableEq (Except ε α) :=
  fun a b =>
    match a, b with
    | .error e, .error e' => decidable_of_iff (e = e') (by simp)
    | .ok v, .ok v' => decidable_of_iff (v = v') (by simp)
    | .error _, .ok _ => isFalse (by simp)
    | .ok _, .error _ => isFalse (by simp)

/-- A message state at the header boundary with score and addresses present
(the first To address carries a `+` alias). -/
def mW : Message (Int × Nat) :=
  { Id := "m1", From := [], To := ["user+tag@example.org"],
    EnvelopeTo := ["user@example.org"], EnvelopeFrom := [], State := "data",
    InHeader := true, SpamScore := (1155, 3), SpamScoreSet := true }

/-- A classification client constantly returning `"ham"`. -/
def gHam : List String → Int × Nat → String := fun _ _ => "ham"

/-- A boundary message state whose spam score was never observed. -/
def mNoScore : Message (Int × Nat) :=
  { Id := "m1", From := [], To := ["user@example.org"],
    EnvelopeTo := ["user@example.org"], EnvelopeFrom := [], State := "data",
    InHeader := true, SpamScore := (0, 0), SpamScoreSet := false }

/-- A session whose active data message is `mNoScore`. -/
def sessW : Session (Int × Nat) :=
  { Id := "s1", Messages := [("m1", mNoScore)], RDNS := "host", Confirmed := true,
    Remote := "1.2.3.4:11223", Local := "5.6.7.8:25", AuthorizedUser := "",
    DataMessage := "m1" }

/-- A filter state holding the single session `sessW`. -/
def fW : Filter (Int × Nat) := { (newFilter : Filter (Int × Nat)) with Sessions := [("s1", sessW)] }

/-- A message already out of the header phase. -/
def mBody : Message (Int × Nat) :=
  { Id := "m1", From := [], To := ["user@example.org"],
    EnvelopeTo := ["user@example.org"], EnvelopeFrom := [], State := "data",
    InHeader := false, SpamScore := (1155, 3), SpamScoreSet := true }

/-- A session whose active data message is `mBody`. -/
def sessBody : Session (Int × Nat) :=
  { Id := "s1", Messages := [("m1", mBody)], RDNS := "host", Confirmed := true,
    Remote := "1.2.3.4:11223", Local := "5.6.7.8:25", AuthorizedUser := "",
    DataMessage := "m1" }

/-- A filter state holding the single session `sessBody`. -/
def fBody : Filter (Int × Nat) := { (newFilter : Filter (Int × Nat)) with Sessions := [("s1", sessBody)] }

/-- A session with no recorded messages and no active data message (the
state of a fresh `link-connect` before any transaction). -/
def sessEmptyDM : Session (Int × Nat) :=
  { Id := "s1", Messages := [], RDNS := "host", Confirmed := true,
    Remote := "1.2.3.4:11223", Local := "5.6.7.8:25", AuthorizedUser := "",
    DataMessage := "" }

/-- A filter state holding the single session `sessEmptyDM`. -/
def fEmptyDM : Filter (Int × Nat) :=
  { (newFilter : Filter (Int × Nat)) with Sessions := [("s1", sessEmptyDM)] }

/-- Every To address stored anywhere in the filter state matches
`EMAIL_ADDRESS_PATTERN` — an invariant of the protocol loop (messages are
created with empty To lists and To is only ever extended with outputs of
`parseEmailAddress`). -/
def storeValid {S : Type} (f : Filter S) : Prop :=
  ∀ p ∈ f.Sessions, ∀ q ∈ p.2.Messages, ∀ a ∈ q.2.To, emailMatch a = true

/-! ## Basic lemmas about the string primitives -/

theorem hasPrefixL_iff (p s : List Char) : hasPrefixL p s = true ↔ ∃ t, s = p ++ t := by
  induction p generalizing s with
  | nil => simp [hasPrefixL]
  | cons c cs ih =>
    cases s with
    | nil => simp [hasPrefixL]
    | cons d ds =>
      simp only [hasPrefixL, Bool.and_eq_true, beq_iff_eq, ih, List.cons_append,
        List.cons.injEq]
      constructor
      · rintro ⟨h1, t, h2⟩
        exact ⟨t, h1.symm, h2⟩
      · rintro ⟨t, h1, h2⟩
        exact ⟨h1.symm, t, h2⟩

theorem blank_hasPrefixL_false {s : String} {c : Char} {ps : List Char}
    (hc : isSpaceGo c = false) (hb : isBlankGo s = true) :
    hasPrefixL (c :: ps) s.data = false := by
  cases h : s.data with
  | nil => simp [hasPrefixL]
  | cons d ds =>
    rw [isBlankGo, h] at hb
    simp only [List.all_cons, Bool.and_eq_true] at hb
    cases hcd : c == d with
    | false => simp [hasPrefixL, hcd]
    | true =>
      have hcd' : c = d := beq_iff_eq.mp hcd
      rw [← hcd'] at hb
      rw [hc] at hb
      exact absurd hb.1 (by simp)

theorem splitOnChar_ne_nil (sep : Char) (cs : List Char) : splitOnChar sep cs ≠ [] := by
  cases cs with
  | nil => simp [splitOnChar]
  | cons c cs =>
    rw [splitOnChar]
    by_cases h : c = sep
    · simp [h]
    · rw [if_neg h]
      cases hs : splitOnChar sep cs <;> simp

theorem splitOnChar_append (sep : Char) (a b : List Char) (ha : sep ∉ a) :
    splitOnChar sep (a ++ sep :: b) = a :: splitOnChar sep b := by
  induction a with
  | nil => simp [splitOnChar]
  | cons c cs ih =>
    have hc : ¬(c = sep) := by
      intro h
      exact ha (h ▸ List.mem_cons_self c cs)
    have ha' : sep ∉ cs := fun h => ha (List.mem_cons_of_mem c h)
    rw [List.cons_append, splitOnChar, if_neg hc, ih ha']

theorem goSplit_barJoin (fields : List String) (rest : String)
    (h : ∀ a ∈ fields, '|' ∉ a.data) :
    goSplit '|' (barJoin fields rest) = fields ++ goSplit '|' rest := by
  induction fields with
  | nil => simp [barJoin]
  | cons a as ih =>
    have ha : '|' ∉ a.data := h a (List.mem_cons_self a as)
    have has : ∀ x ∈ as, '|' ∉ x.data := fun x hx => h x (List.mem_cons_of_mem a hx)
    have hdata : (barJoin (a :: as) rest).data = a.data ++ '|' :: (barJoin as rest).data := by
      rw [barJoin, String.data_append, String.data_append]
      simp
    rw [goSplit, hdata, splitOnChar_append _ _ _ ha]
    rw [List.map_cons]
    rw [← goSplit, ih has, List.cons_append]

theorem lastAtom_barJoin (fields : List String) (rest : String) (tail : List String) :
    lastAtom (barJoin fields rest) (fields ++ tail) fields.length = rest := by
  have key : ∀ (fs : List String) (r : String),
      (barJoin fs r).data.drop ((fs.map (fun a => a.data.length + 1)).sum) = r.data := by
    intro fs
    induction fs with
    | nil => intro r; simp [barJoin]
    | cons a as ih =>
      intro r
      have hdata : (barJoin (a :: as) r).data = (a.data ++ ['|']) ++ (barJoin as r).data := by
        rw [barJoin, String.data_append, String.data_append]
      rw [hdata, List.map_cons, List.sum_cons]
      have hlen : a.data.length + 1 = (a.data ++ ['|']).length := by simp
      rw [hlen, List.drop_append]
      exact ih r
  have hfold : ∀ (l : List Nat), l.foldl (· + ·) 0 = l.sum := by
    intro l
    rw [List.sum_eq_foldl]
  apply String.ext
  rw [lastAtom]
  simp only [List.take_left fields tail, hfold]
  exact key fields rest

theorem emailMatch_cut_found {s : String} (h : emailMatch s = true) :
    (cutChar '@' s).2.2 = true := by
  rw [emailMatch] at h
  simp only [Bool.and_eq_true] at h
  rw [cutChar]
  exact h.1.1.1

theorem parseEmailAddress_emailMatch {bf : String → Option String} {a r : String}
    (h : parseEmailAddress bf a = some r) : emailMatch r = true := by
  rw [parseEmailAddress] at h
  by_cases hm : emailMatch (match bf (goTrim a) with | some g => g | none => goTrim a) = true
  · rw [if_pos hm] at h
    cases h
    exact hm
  · rw [if_neg hm] at h
    cases h

/-! ## Evaluation lemmas for `filterDataLine` -/

theorem blank_no_special {line : String} (hb : isBlankGo line = true) :
    hasPrefixGo "X-Spam-Score: " line = false ∧ hasPrefixGo "X-Spam: " line = false ∧
    hasPrefixGo "X-Spam-Class: " line = false ∧ hasPrefixGo "To: " line = false ∧
    hasPrefixGo "From: " line = false := by
  refine ⟨?_, ?_, ?_, ?_, ?_⟩
  · rw [hasPrefixGo, show "X-Spam-Score: ".data = 'X' :: "-Spam-Score: ".data from rfl]
    exact blank_hasPrefixL_false (by decide) hb
  · rw [hasPrefixGo, show "X-Spam: ".data = 'X' :: "-Spam: ".data from rfl]
    exact blank_hasPrefixL_false (by decide) hb
  · rw [hasPrefixGo, show "X-Spam-Class: ".data = 'X' :: "-Spam-Class: ".data from rfl]
    exact blank_hasPrefixL_false (by decide) hb
  · rw [hasPrefixGo, show "To: ".data = 'T' :: "o: ".data from rfl]
    exact blank_hasPrefixL_false (by decide) hb
  · rw [hasPrefixGo, show "From: ".data = 'F' :: "rom: ".data from rfl]
    exact blank_hasPrefixL_false (by decide) hb

theorem filterDataLine_blank_noSignal {S : Type} [Inhabited S]
    (g : List String → S → String) (pf : String → Option S) (bf : String → Option String)
    (message : Message S) (line : String)
    (hb : isBlankGo line = true)
    (hmiss : message.SpamScoreSet = false ∨ message.To = [] ∨ message.EnvelopeTo = []) :
    filterDataLine g pf bf message line = .ok (message, [line]) := by
  obtain ⟨h1, h2, h3, h4, h5⟩ := blank_no_special hb
  rw [filterDataLine]
  simp only [h1, h2, h3, h4, h5, hb, Bool.false_eq_true, if_false, if_true]
  rcases hmiss with hm | hm | hm
  · simp [hm]
  · simp [hm]
  · simp [hm]

theorem filterDataLine_blank_classify {S : Type} [Inhabited S]
    (g : List String → S → String) (pf : String → Option S) (bf : String → Option String)
    (message : Message S) (line : String)
    (hb : isBlankGo line = true)
    (hset : message.SpamScoreSet = true)
    (hTo : message.To ≠ [])
    (hEnv : message.EnvelopeTo ≠ [])
    (hvalid : emailMatch message.To[0]! = true) :
    filterDataLine g pf bf message line =
      .ok (message, mkBoundary (g [derivedAddress message.To[0]!] message.SpamScore) line) := by
  obtain ⟨h1, h2, h3, h4, h5⟩ := blank_no_special hb
  have hfound := emailMatch_cut_found hvalid
  rw [filterDataLine]
  simp only [h1, h2, h3, h4, h5, hb, Bool.false_eq_true, if_false, if_true]
  have hTo' : ¬(message.To.length < 1) := by
    simp [Nat.lt_one_iff, List.length_eq_zero, hTo]
  have hEnv' : ¬(message.EnvelopeTo.length < 1) := by
    simp [Nat.lt_one_iff, List.length_eq_zero, hEnv]
  simp only [hset, hTo', hEnv', hfound, if_false, if_true]
  rw [mkBoundary, derivedAddress]
  cases hc : g [(cutChar '+' (cutChar '@' message.To[0]!).1).1 ++ "@" ++ (cutChar '@' message.To[0]!).2.1] message.SpamScore != "" <;> simp [hc]

theorem filterDataLine_ordinary {S : Type} [Inhabited S]
    (g : List String → S → String) (pf : String → Option S) (bf : String → Option String)
    (message : Message S) (line : String)
    (h1 : hasPrefixGo "X-Spam-Score: " line = false)
    (h2 : hasPrefixGo "X-Spam: " line = false)
    (h3 : hasPrefixGo "X-Spam-Class: " line = false)
    (h4 : hasPrefixGo "To: " line = false)
    (h5 : hasPrefixGo "From: " line = false)
    (hb : isBlankGo line = false) :
    filterDataLine g pf bf message line = .ok (message, [line]) := by
  rw [filterDataLine]
  simp [h1, h2, h3, h4, h5, hb]

theorem xspam_excl {line : String} (h : hasPrefixGo "X-Spam: " line = true) :
    hasPrefixGo "X-Spam-Score: " line = false := by
  rw [hasPrefixGo] at h ⊢
  obtain ⟨t, ht⟩ := (hasPrefixL_iff _ _).mp h
  rw [ht]
  simp [hasPrefixL]

theorem xspamclass_excl {line : String} (h : hasPrefixGo "X-Spam-Class: " line = true) :
    hasPrefixGo "X-Spam-Score: " line = false ∧ hasPrefixGo "X-Spam: " line = false := by
  rw [hasPrefixGo] at h
  obtain ⟨t, ht⟩ := (hasPrefixL_iff _ _).mp h
  constructor <;>
  · rw [hasPrefixGo, ht]
    simp [hasPrefixL]

theorem spamScoreLine_two_fields {line : String}
    (hp : hasPrefixGo "X-Spam-Score: " line = true) :
    2 ≤ (goSplit ' ' line).length := by
  rw [hasPrefixGo] at hp
  obtain ⟨t, ht⟩ := (hasPrefixL_iff _ _).mp hp
  have ht' : line.data = "X-Spam-Score:".data ++ ' ' :: t := by
    rw [ht]
    rfl
  rw [goSplit, ht', splitOnChar_append _ _ _ (by decide)]
  have hnn := splitOnChar_ne_nil ' ' t
  have hpos : 0 < (splitOnChar ' ' t).length := List.length_pos.mpr hnn
  simp only [List.map_cons, List.length_cons, List.length_map]
  omega

/-! ## Claim theorems -/

/-- C1: for every message whose spam score has been observed and whose To and
EnvelopeTo lists are both non-empty (with its first To address well-formed,
an invariant of every address the filter ever stores, see
`runLine_preserves_storeValid` and `storeValid_first_To`), processing a blank
line in-header produces
the batch: first `X-Spam: yes` when the classification client's label equals
`"spam"` and `X-Spam: no` otherwise (always present), then
`X-Spam-Class: label` exactly when the label is nonempty, then the blank line
itself. -/
theorem c1_boundary_batch {S : Type} [Inhabited S]
    (g : List String → S → String) (pf : String → Option S) (bf : String → Option String)
    (message : Message S) (line : String)
    (hb : isBlankGo line = true)
    (hset : message.SpamScoreSet = true)
    (hTo : message.To ≠ []) (hEnv : message.EnvelopeTo ≠ [])
    (hvalid : emailMatch message.To[0]! = true) :
    filterDataLine g pf bf message line =
      .ok (message,
        ("X-Spam: " ++ (if g [derivedAddress message.To[0]!] message.SpamScore == "spam" then "yes" else "no")) ::
        ((if g [derivedAddress message.To[0]!] message.SpamScore != "" then
            ["X-Spam-Class: " ++ g [derivedAddress message.To[0]!] message.SpamScore]
          else []) ++ [line])) := by
  rw [filterDataLine_blank_classify g pf bf message line hb hset hTo hEnv hvalid, mkBoundary]

/-- Witness for C1: a concrete boundary state; the classifier answers `ham`,
so the batch is `X-Spam: no`, `X-Spam-Class: ham`, then the blank line. -/
theorem c1_boundary_batch_witness :
    filterDataLine gW parseDecimal bfW mW "" = .ok (mW, ["X-Spam: no", "X-Spam-Class: ham", ""]) := by
  have h := c1_boundary_batch gW parseDecimal bfW mW "" (by decide) (by decide) (by decide)
    (by decide) (by decide)
  rw [h]
  rfl

/-- C2: at the header boundary, when the spam score was never observed or the
To list or the EnvelopeTo list is empty, the blank line is emitted as the only
output line, nothing is fatal, and the stored message changes only in its
`InHeader` flag. -/
theorem c2_fail_open {S : Type} [Inhabited S]
    (g : List String → S → String) (pf : String → Option S) (bf : String → Option String)
    (f : Filter S) (sid token line : String)
    (session : Session S) (message : Message S)
    (hs : mapFind sid f.Sessions = some session)
    (hm : mapFind session.DataMessage session.Messages = some message)
    (hin : message.InHeader = true)
    (hb : isBlankGo line = true)
    (hmiss : message.SpamScoreSet = false ∨ message.To = [] ∨ message.EnvelopeTo = []) :
    dataLine g pf bf f sid token line =
      .ok ({ f with Sessions := (mapSet sid
               { session with Messages := (mapSet session.DataMessage
                   { message with InHeader := false } session.Messages) } f.Sessions) },
           ["filter-dataline|" ++ sid ++ "|" ++ token ++ "|" ++ line]) := by
  rw [dataLine]
  simp only [getSession, getSessionMessage, hs, hm]
  simp only [hin, if_true, hb]
  rw [filterDataLine_blank_noSignal g pf bf { message with InHeader := false } line hb hmiss]
  simp

/-- Witness for C2: a session whose active message never saw a spam score;
the blank boundary line passes through alone and only `InHeader` flips. -/
theorem c2_fail_open_witness :
    dataLine gW parseDecimal bfW fW "s1" "tok" "" =
      .ok ({ fW with Sessions := (mapSet "s1"
               { sessW with Messages := (mapSet sessW.DataMessage
                   { mNoScore with InHeader := false } sessW.Messages) } fW.Sessions) },
           ["filter-dataline|" ++ "s1" ++ "|" ++ "tok" ++ "|" ++ ""]) :=
  c2_fail_open gW parseDecimal bfW fW "s1" "tok" "" sessW mNoScore (by decide) (by decide)
    (by decide) (by decide) (Or.inl (by decide))

/-- C7: at the header boundary with score and addresses present, the
classification client is consulted exactly at the single candidate address
derived from the first To address by truncating its local part at the first
`'+'` and recombining with the original domain, and at the stored score: the
result depends on the client only through that one value.  In particular
`user+tag@example.org` is classified as `user@example.org`. -/
theorem c7_classification_address {S : Type} [Inhabited S]
    (pf : String → Option S) (bf : String → Option String)
    (message : Message S) (line : String)
    (hb : isBlankGo line = true)
    (hset : message.SpamScoreSet = true)
    (hTo : message.To ≠ []) (hEnv : message.EnvelopeTo ≠ [])
    (hvalid : emailMatch message.To[0]! = true) :
    (∀ g g' : List String → S → String,
        g [derivedAddress message.To[0]!] message.SpamScore =
          g' [derivedAddress message.To[0]!] message.SpamScore →
        filterDataLine g pf bf message line = filterDataLine g' pf bf message line)
    ∧ derivedAddress "user+tag@example.org" = "user@example.org" := by
  refine ⟨?_, by decide⟩
  intro g g' hgg
  rw [filterDataLine_blank_classify g pf bf message line hb hset hTo hEnv hvalid,
    filterDataLine_blank_classify g' pf bf message line hb hset hTo hEnv hvalid, hgg]

/-- Witness for C7: two clients that differ globally but agree at the derived
address/score produce identical batches, and the alias example evaluates. -/
theorem c7_classification_address_witness :
    (filterDataLine gW parseDecimal bfW mW "" = filterDataLine gHam parseDecimal bfW mW "")
    ∧ derivedAddress "user+tag@example.org" = "user@example.org" :=
  ⟨(c7_classification_address parseDecimal bfW mW "" (by decide) (by decide) (by decide)
      (by decide) (by decide)).1 gW gHam (by decide),
   (c7_classification_address parseDecimal bfW mW "" (by decide) (by decide) (by decide)
      (by decide) (by decide)).2⟩

/-- C8: an in-header `X-Spam-Score: ` line has its token at index 1 (splitting
the whole line on the space character, the code's tokenization — the prefix
itself guarantees at least two such tokens) parsed by the float parser; on
success the score is stored, score-observed is set, and the line passes
through unchanged; fewer than two tokens or an unparseable token is fatal. -/
theorem c8_spam_score_parse {S : Type} [Inhabited S]
    (g : List String → S → String) (pf : String → Option S) (bf : String → Option String)
    (message : Message S) (line : String)
    (hp : hasPrefixGo "X-Spam-Score: " line = true) :
    ((goSplit ' ' line).length < 2 → isFatal (filterDataLine g pf bf message line) = true)
    ∧ (∀ v, pf (goSplit ' ' line)[1]! = some v →
        filterDataLine g pf bf message line =
          .ok ({ message with SpamScore := v, SpamScoreSet := true }, [line]))
    ∧ (pf (goSplit ' ' line)[1]! = none →
        isFatal (filterDataLine g pf bf message line) = true) := by
  have hlen := spamScoreLine_two_fields hp
  have hlen' : ¬((goSplit ' ' line).length < 2) := by omega
  refine ⟨?_, ?_, ?_⟩
  · intro h
    exact absurd h hlen'
  · intro v hv
    rw [filterDataLine]
    simp only [hp, if_true, parseSpamScore, hlen', if_false, hv]
  · intro hv
    rw [filterDataLine]
    simp only [hp, if_true, parseSpamScore, hlen', if_false, hv]
    rfl

/-- Witness for C8: the fixture's score line stores `1.155` (as the exact
decimal `(1155, 3)`) and passes through; a non-numeric token is fatal. -/
theorem c8_spam_score_parse_witness :
    (parseDecimal (goSplit ' ' "X-Spam-Score: 1.155 / 100")[1]! = some (1155, 3)
      ∧ filterDataLine gW parseDecimal bfW mW "X-Spam-Score: 1.155 / 100" =
          .ok ({ mW with SpamScore := (1155, 3), SpamScoreSet := true },
               ["X-Spam-Score: 1.155 / 100"]))
    ∧ (parseDecimal (goSplit ' ' "X-Spam-Score: bogus")[1]! = none
      ∧ isFatal (filterDataLine gW parseDecimal bfW mW "X-Spam-Score: bogus") = true) := by
  refine ⟨⟨by decide, ?_⟩, ⟨by decide, ?_⟩⟩
  · exact (c8_spam_score_parse gW parseDecimal bfW mW "X-Spam-Score: 1.155 / 100"
      (by decide)).2.1 (1155, 3) (by decide)
  · exact (c8_spam_score_parse gW parseDecimal bfW mW "X-Spam-Score: bogus"
      (by decide)).2.2 (by decide)

/-- C9: an in-header line beginning with `X-Spam: ` or `X-Spam-Class: ` is
dropped entirely — zero output lines — and the message state is unchanged. -/
theorem c9_drop_injected_headers {S : Type} [Inhabited S]
    (g : List String → S → String) (pf : String → Option S) (bf : String → Option String)
    (message : Message S) (line : String)
    (h : hasPrefixGo "X-Spam: " line = true ∨ hasPrefixGo "X-Spam-Class: " line = true) :
    filterDataLine g pf bf message line = .ok (message, []) := by
  rcases h with h | h
  · rw [filterDataLine]
    simp [xspam_excl h, h]
  · obtain ⟨hs, hx⟩ := xspamclass_excl h
    rw [filterDataLine]
    simp [hs, hx, h]

/-- Witness for C9: the fixture's upstream `X-Spam: no` and
`X-Spam-Class: original` lines are both swallowed. -/
theorem c9_drop_injected_headers_witness :
    filterDataLine gW parseDecimal bfW mW "X-Spam: no" = .ok (mW, [])
    ∧ filterDataLine gW parseDecimal bfW mW "X-Spam-Class: original" = .ok (mW, []) :=
  ⟨c9_drop_injected_headers gW parseDecimal bfW mW "X-Spam: no" (Or.inl (by decide)),
   c9_drop_injected_headers gW parseDecimal bfW mW "X-Spam-Class: original" (Or.inr (by decide))⟩

/-! ## Dispatcher and store lemmas -/

theorem okPair_inj {α β : Type} {a a' : α} {b b' : β}
    (h : (Except.ok (a, b) : Except String (α × β)) = .ok (a', b')) : a = a' ∧ b = b' := by
  injection h with h1
  injection h1 with h2 h3
  exact ⟨h2, h3⟩

theorem withNoOutput_ok {S : Type} [Inhabited S] {r : Except String (Filter S)}
    {f' : Filter S} {out : List String}
    (h : withNoOutput r = .ok (f', out)) : r = .ok f' := by
  cases r with
  | error e => simp [withNoOutput] at h
  | ok f1 =>
    rw [withNoOutput] at h
    obtain ⟨h1, h2⟩ := okPair_inj h
    rw [h1]

theorem isFatal_withNoOutput {S : Type} [Inhabited S] (r : Except String (Filter S)) :
    isFatal (withNoOutput r) = isFatal r := by
  cases r <;> rfl

theorem mapFind_mem {α : Type} {k : String} {v : α} {m : List (String × α)}
    (h : mapFind k m = some v) : (k, v) ∈ m := by
  induction m with
  | nil => simp [mapFind] at h
  | cons p rest ih =>
    obtain ⟨k', v'⟩ := p
    rw [mapFind] at h
    by_cases hk : k' = k
    · rw [if_pos hk] at h
      cases h
      subst hk
      exact List.mem_cons_self _ _
    · rw [if_neg hk] at h
      exact List.mem_cons_of_mem _ (ih h)

theorem mapSet_mem {α : Type} {k : String} {v : α} {m : List (String × α)} {p : String × α}
    (h : p ∈ mapSet k v m) : p.2 = v ∨ p ∈ m := by
  induction m with
  | nil =>
    rw [mapSet] at h
    simp at h
    left
    rw [h]
  | cons hd rest ih =>
    obtain ⟨k', v'⟩ := hd
    rw [mapSet] at h
    by_cases hk : k' = k
    · rw [if_pos hk] at h
      rcases List.mem_cons.mp h with h1 | h1
      · left
        rw [h1]
      · right
        exact List.mem_cons_of_mem _ h1
    · rw [if_neg hk] at h
      rcases List.mem_cons.mp h with h1 | h1
      · right
        rw [h1]
        exact List.mem_cons_self _ _
      · rcases ih h1 with h2 | h2
        · left
          exact h2
        · right
          exact List.mem_cons_of_mem _ h2

theorem mapDel_mem {α : Type} {k : String} {m : List (String × α)} {p : String × α}
    (h : p ∈ mapDel k m) : p ∈ m := by
  induction m with
  | nil => simp [mapDel] at h
  | cons hd rest ih =>
    obtain ⟨k', v'⟩ := hd
    rw [mapDel] at h
    by_cases hk : k' = k
    · rw [if_pos hk] at h
      exact List.mem_cons_of_mem _ h
    · rw [if_neg hk] at h
      rcases List.mem_cons.mp h with h1 | h1
      · rw [h1]
        exact List.mem_cons_self _ _
      · exact List.mem_cons_of_mem _ (ih h1)

theorem storeValid_set_session {S : Type} {f : Filter S} {sid : String} {session1 : Session S}
    (hv : storeValid f)
    (hs1 : ∀ q ∈ session1.Messages, ∀ a ∈ q.2.To, emailMatch a = true) :
    storeValid { f with Sessions := mapSet sid session1 f.Sessions } := by
  intro p hp q hq a ha
  rcases mapSet_mem hp with hpv | hpmem
  · exact hs1 q (by rw [← hpv] at hs1 ⊢; exact hq) a ha
  · exact hv p hpmem q hq a ha

theorem msgs_set_valid {S : Type} {f : Filter S} {sid : String} {session : Session S}
    {mid : String} {message1 : Message S}
    (hv : storeValid f)
    (hfound : mapFind sid f.Sessions = some session)
    (hm1 : ∀ a ∈ message1.To, emailMatch a = true) :
    ∀ q ∈ mapSet mid message1 session.Messages, ∀ a ∈ q.2.To, emailMatch a = true := by
  intro q hq a ha
  rcases mapSet_mem hq with hqv | hqmem
  · exact hm1 a (by rw [hqv] at ha; exact ha)
  · exact hv (sid, session) (mapFind_mem hfound) q hqmem a ha

theorem storeValid_linkConnect {S : Type} [Inhabited S] {f f' : Filter S}
    {sid rdns confirmed src dst : String}
    (h : linkConnect f sid rdns confirmed src dst = .ok f') (hv : storeValid f) :
    storeValid f' := by
  rw [linkConnect] at h
  cases hfind : mapFind sid f.Sessions with
  | some s =>
    rw [hfind] at h
    cases h
  | none =>
    rw [hfind] at h
    injection h with h1
    rw [← h1]
    apply storeValid_set_session hv
    intro q hq
    simp [NewSession] at hq

theorem storeValid_linkDisconnect {S : Type} [Inhabited S] {f f' : Filter S} {sid : String}
    (h : linkDisconnect f sid = .ok f') (hv : storeValid f) : storeValid f' := by
  rw [linkDisconnect] at h
  cases hg : getSession f sid with
  | error e =>
    rw [hg] at h
    cases h
  | ok s =>
    rw [hg] at h
    injection h with h1
    rw [← h1]
    intro p hp q hq a ha
    exact hv p (mapDel_mem hp) q hq a ha

theorem storeValid_linkAuth {S : Type} [Inhabited S] {f f' : Filter S}
    {sid result username : String}
    (h : linkAuth f sid result username = .ok f') (hv : storeValid f) : storeValid f' := by
  rw [linkAuth] at h
  cases hfind : mapFind sid f.Sessions with
  | none =>
    simp only [getSession, hfind] at h
    cases h
  | some session =>
    simp only [getSession, hfind] at h
    by_cases hr : (result == "pass") = true
    · rw [if_pos hr] at h
      injection h with h1
      rw [← h1]
      apply storeValid_set_session hv
      intro q hq a ha
      exact hv (sid, session) (mapFind_mem hfind) q hq a ha
    · rw [if_neg hr] at h
      injection h with h1
      rw [← h1]
      exact hv

theorem storeValid_txReset {S : Type} [Inhabited S] {f f' : Filter S} {sid mid : String}
    (h : txReset f sid mid = .ok f') (hv : storeValid f) : storeValid f' := by
  rw [txReset] at h
  cases hfind : mapFind sid f.Sessions with
  | none =>
    simp only [getSessionMessage, getSession, hfind] at h
    cases h
  | some session =>
    simp only [getSessionMessage, getSession, hfind] at h
    cases hfm : mapFind mid session.Messages with
    | none =>
      rw [hfm] at h
      cases h
    | some message =>
      simp only [hfm] at h
      injection h with h1
      rw [← h1]
      apply storeValid_set_session hv
      apply msgs_set_valid hv hfind
      intro a ha
      simp [NewMessage] at ha

theorem storeValid_txBegin {S : Type} [Inhabited S] {f f' : Filter S} {sid mid : String}
    (h : txBegin f sid mid = .ok f') (hv : storeValid f) : storeValid f' := by
  rw [txBegin] at h
  cases hfind : mapFind sid f.Sessions with
  | none =>
    simp only [getSession, hfind] at h
    cases h
  | some session =>
    simp only [getSession, hfind] at h
    cases hfm : mapFind mid session.Messages with
    | some message =>
      rw [hfm] at h
      cases h
    | none =>
      rw [hfm] at h
      injection h with h1
      rw [← h1]
      apply storeValid_set_session hv
      apply msgs_set_valid hv hfind
      intro a ha
      simp [NewMessage] at ha

theorem storeValid_txMail {S : Type} [Inhabited S]
    {bf : String → Option String} {f f' : Filter S} {sid mid result address : String}
    (h : txMail bf f sid mid result address = .ok f') (hv : storeValid f) : storeValid f' := by
  rw [txMail] at h
  cases hfind : mapFind sid f.Sessions with
  | none =>
    simp only [getSessionMessage, getSession, hfind] at h
    cases h
  | some session =>
    simp only [getSessionMessage, getSession, hfind] at h
    cases hfm : mapFind mid session.Messages with
    | none =>
      rw [hfm] at h
      cases h
    | some message =>
      simp only [hfm] at h
      by_cases hr : (result == "ok") = true
      · rw [if_pos hr] at h
        cases hpe : parseEmailAddress bf address with
        | some a =>
          rw [hpe] at h
          injection h with h1
          rw [← h1]
          apply storeValid_set_session hv
          apply msgs_set_valid hv hfind
          intro a' ha'
          exact hv (sid, session) (mapFind_mem hfind) (mid, message) (mapFind_mem hfm) a' ha'
        | none =>
          rw [hpe] at h
          injection h with h1
          rw [← h1]
          exact hv
      · rw [if_neg hr] at h
        injection h with h1
        rw [← h1]
        exact hv

theorem storeValid_txRcpt {S : Type} [Inhabited S]
    {bf : String → Option String} {f f' : Filter S} {sid mid result address : String}
    (h : txRcpt bf f sid mid result address = .ok f') (hv : storeValid f) : storeValid f' := by
  rw [txRcpt] at h
  cases hfind : mapFind sid f.Sessions with
  | none =>
    simp only [getSessionMessage, getSession, hfind] at h
    cases h
  | some session =>
    simp only [getSessionMessage, getSession, hfind] at h
    cases hfm : mapFind mid session.Messages with
    | none =>
      rw [hfm] at h
      cases h
    | some message =>
      simp only [hfm] at h
      by_cases hr : (result == "ok") = true
      · rw [if_pos hr] at h
        cases hpe : parseEmailAddress bf address with
        | some a =>
          rw [hpe] at h
          injection h with h1
          rw [← h1]
          apply storeValid_set_session hv
          apply msgs_set_valid hv hfind
          intro a' ha'
          exact hv (sid, session) (mapFind_mem hfind) (mid, message) (mapFind_mem hfm) a' ha'
        | none =>
          rw [hpe] at h
          injection h with h1
          rw [← h1]
          exact hv
      · rw [if_neg hr] at h
        injection h with h1
        rw [← h1]
        exact hv

theorem storeValid_txData {S : Type} [Inhabited S] {f f' : Filter S} {sid mid result : String}
    (h : txData f sid mid result = .ok f') (hv : storeValid f) : storeValid f' := by
  rw [txData] at h
  cases hfind : mapFind sid f.Sessions with
  | none =>
    simp only [getSessionMessage, getSession, hfind] at h
    cases h
  | some session =>
    simp only [getSessionMessage, getSession, hfind] at h
    cases hfm : mapFind mid session.Messages with
    | none =>
      rw [hfm] at h
      cases h
    | some message =>
      simp only [hfm] at h
      by_cases hr : (result == "ok") = true
      · rw [if_pos hr] at h
        injection h with h1
        rw [← h1]
        apply storeValid_set_session hv
        apply msgs_set_valid hv hfind
        intro a' ha'
        exact hv (sid, session) (mapFind_mem hfind) (mid, message) (mapFind_mem hfm) a' ha'
      · rw [if_neg hr] at h
        injection h with h1
        rw [← h1]
        exact hv

theorem storeValid_txCommit {S : Type} [Inhabited S] {f f' : Filter S} {sid mid size : String}
    (h : txCommit f sid mid size = .ok f') (hv : storeValid f) : storeValid f' := by
  rw [txCommit] at h
  cases hfind : mapFind sid f.Sessions with
  | none =>
    simp only [getSessionMessage, getSession, hfind] at h
    cases h
  | some session =>
    simp only [getSessionMessage, getSession, hfind] at h
    cases hfm : mapFind mid session.Messages with
    | none =>
      rw [hfm] at h
      cases h
    | some message =>
      simp only [hfm] at h
      injection h with h1
      rw [← h1]
      apply storeValid_set_session hv
      apply msgs_set_valid hv hfind
      intro a' ha'
      exact hv (sid, session) (mapFind_mem hfind) (mid, message) (mapFind_mem hfm) a' ha'

theorem storeValid_txRollback {S : Type} [Inhabited S] {f f' : Filter S} {sid mid : String}
    (h : txRollback f sid mid = .ok f') (hv : storeValid f) : storeValid f' := by
  rw [txRollback] at h
  cases hfind : mapFind sid f.Sessions with
  | none =>
    simp only [getSessionMessage, getSession, hfind] at h
    cases h
  | some session =>
    simp only [getSessionMessage, getSession, hfind] at h
    cases hfm : mapFind mid session.Messages with
    | none =>
      rw [hfm] at h
      cases h
    | some message =>
      simp only [hfm] at h
      injection h with h1
      rw [← h1]
      apply storeValid_set_session hv
      apply msgs_set_valid hv hfind
      intro a' ha'
      exact hv (sid, session) (mapFind_mem hfind) (mid, message) (mapFind_mem hfm) a' ha'

theorem filterDataLine_To_valid {S : Type} [Inhabited S]
    {g : List String → S → String} {pf : String → Option S} {bf : String → Option String}
    {m m2 : Message S} {line : String} {out : List String}
    (h : filterDataLine g pf bf m line = .ok (m2, out))
    (hm : ∀ a ∈ m.To, emailMatch a = true) : ∀ a ∈ m2.To, emailMatch a = true := by
  rw [filterDataLine] at h
  by_cases h1 : hasPrefixGo "X-Spam-Score: " line = true
  · rw [if_pos h1] at h
    cases hps : parseSpamScore pf line with
    | error e =>
      rw [hps] at h
      cases h
    | ok v =>
      rw [hps] at h
      obtain ⟨hm2, _⟩ := okPair_inj h
      rw [← hm2]
      exact hm
  · rw [if_neg h1] at h
    by_cases h2 : hasPrefixGo "X-Spam: " line = true
    · rw [if_pos h2] at h
      obtain ⟨hm2, _⟩ := okPair_inj h
      rw [← hm2]
      exact hm
    · rw [if_neg h2] at h
      by_cases h3 : hasPrefixGo "X-Spam-Class: " line = true
      · rw [if_pos h3] at h
        obtain ⟨hm2, _⟩ := okPair_inj h
        rw [← hm2]
        exact hm
      · rw [if_neg h3] at h
        by_cases h4 : hasPrefixGo "To: " line = true
        · rw [if_pos h4] at h
          cases hpe : parseEmailAddress bf (cutChar ' ' line).2.1 with
          | none =>
            simp only [hpe] at h
            obtain ⟨hm2, _⟩ := okPair_inj h
            rw [← hm2]
            exact hm
          | some address =>
            simp only [hpe] at h
            obtain ⟨hm2, _⟩ := okPair_inj h
            rw [← hm2]
            intro a ha
            rcases List.mem_append.mp ha with ha1 | ha1
            · exact hm a ha1
            · rw [List.mem_singleton.mp ha1]
              exact parseEmailAddress_emailMatch hpe
        · rw [if_neg h4] at h
          by_cases h5 : hasPrefixGo "From: " line = true
          · rw [if_pos h5] at h
            cases hpe : parseEmailAddress bf (cutChar ' ' line).2.1 with
            | none =>
              simp only [hpe] at h
              obtain ⟨hm2, _⟩ := okPair_inj h
              rw [← hm2]
              exact hm
            | some address =>
              simp only [hpe] at h
              obtain ⟨hm2, _⟩ := okPair_inj h
              rw [← hm2]
              exact hm
          · rw [if_neg h5] at h
            by_cases h6 : isBlankGo line = true
            · rw [if_pos h6] at h
              by_cases hset : m.SpamScoreSet = false
              · rw [if_pos hset] at h
                obtain ⟨hm2, _⟩ := okPair_inj h
                rw [← hm2]
                exact hm
              · rw [if_neg hset] at h
                by_cases hTo : m.To.length < 1
                · rw [if_pos hTo] at h
                  obtain ⟨hm2, _⟩ := okPair_inj h
                  rw [← hm2]
                  exact hm
                · rw [if_neg hTo] at h
                  by_cases hEnv : m.EnvelopeTo.length < 1
                  · rw [if_pos hEnv] at h
                    obtain ⟨hm2, _⟩ := okPair_inj h
                    rw [← hm2]
                    exact hm
                  · rw [if_neg hEnv] at h
                    by_cases hcut : (cutChar '@' m.To[0]!).2.2 = false
                    · rw [if_pos hcut] at h
                      obtain ⟨hm2, _⟩ := okPair_inj h
                      rw [← hm2]
                      exact hm
                    · rw [if_neg hcut] at h
                      obtain ⟨hm2, _⟩ := okPair_inj h
                      rw [← hm2]
                      exact hm
            · rw [if_neg h6] at h
              obtain ⟨hm2, _⟩ := okPair_inj h
              rw [← hm2]
              exact hm

theorem storeValid_dataLine {S : Type} [Inhabited S]
    {g : List String → S → String} {pf : String → Option S} {bf : String → Option String}
    {f f' : Filter S} {sid token line : String} {out : List String}
    (h : dataLine g pf bf f sid token line = .ok (f', out)) (hv : storeValid f) :
    storeValid f' := by
  rw [dataLine] at h
  cases hfs : mapFind sid f.Sessions with
  | none =>
    simp only [getSession, hfs] at h
    cases h
  | some session =>
    simp only [getSession, getSessionMessage, hfs] at h
    cases hfm : mapFind session.DataMessage session.Messages with
    | none =>
      simp only [hfm] at h
      cases h
    | some message =>
      simp only [hfm] at h
      by_cases hin : message.InHeader = true
      · rw [if_pos hin] at h
        cases hfd : filterDataLine g pf bf
            (if isBlankGo line = true then { message with InHeader := false } else message) line with
        | error e =>
          rw [hfd] at h
          cases h
        | ok p =>
          obtain ⟨message2, lines⟩ := p
          rw [hfd] at h
          obtain ⟨hf', _⟩ := okPair_inj h
          rw [← hf']
          apply storeValid_set_session hv
          apply msgs_set_valid hv hfs
          apply filterDataLine_To_valid hfd
          have hmsg : ∀ a ∈ message.To, emailMatch a = true :=
            fun a ha => hv (sid, session) (mapFind_mem hfs) (session.DataMessage, message)
              (mapFind_mem hfm) a ha
          by_cases hb : isBlankGo line = true
          · rw [if_pos hb]
            exact hmsg
          · rw [if_neg hb]
            exact hmsg
      · rw [if_neg hin] at h
        obtain ⟨hf', _⟩ := okPair_inj h
        rw [← hf']
        exact hv

theorem runLine_preserves_storeValid {S : Type} [Inhabited S]
    {g : List String → S → String} {pf : String → Option S} {bf : String → Option String}
    {f f' : Filter S} {line : String} {out : List String}
    (h : runLine g pf bf f line = .ok (f', out)) (hv : storeValid f) : storeValid f' := by
  rw [runLine, runAtoms] at h
  by_cases h6 : (goSplit '|' line).length < 6
  · rw [if_pos h6] at h
    cases h
  · rw [if_neg h6] at h
    by_cases h0 : (goSplit '|' line)[0]! = "report"
    · rw [if_pos h0] at h
      by_cases e1 : (goSplit '|' line)[4]! = "link-connect"
      · rw [if_pos e1] at h
        by_cases l1 : (goSplit '|' line).length < 10
        · rw [if_pos l1] at h
          cases h
        · rw [if_neg l1] at h
          exact storeValid_linkConnect (withNoOutput_ok h) hv
      · rw [if_neg e1] at h
        by_cases e2 : (goSplit '|' line)[4]! = "link-disconnect"
        · rw [if_pos e2] at h
          exact storeValid_linkDisconnect (withNoOutput_ok h) hv
        · rw [if_neg e2] at h
          by_cases e3 : (goSplit '|' line)[4]! = "link-auth"
          · rw [if_pos e3] at h
            by_cases l3 : (goSplit '|' line).length < 8
            · rw [if_pos l3] at h
              cases h
            · rw [if_neg l3] at h
              exact storeValid_linkAuth (withNoOutput_ok h) hv
          · rw [if_neg e3] at h
            by_cases e4 : (goSplit '|' line)[4]! = "tx-reset"
            · rw [if_pos e4] at h
              by_cases l4 : (goSplit '|' line).length < 7
              · rw [if_pos l4] at h
                cases h
              · rw [if_neg l4] at h
                exact storeValid_txReset (withNoOutput_ok h) hv
            · rw [if_neg e4] at h
              by_cases e5 : (goSplit '|' line)[4]! = "tx-begin"
              · rw [if_pos e5] at h
                by_cases l5 : (goSplit '|' line).length < 7
                · rw [if_pos l5] at h
                  cases h
                · rw [if_neg l5] at h
                  exact storeValid_txBegin (withNoOutput_ok h) hv
              · rw [if_neg e5] at h
                by_cases e6 : (goSplit '|' line)[4]! = "tx-mail"
                · rw [if_pos e6] at h
                  by_cases l6 : (goSplit '|' line).length < 9
                  · rw [if_pos l6] at h
                    cases h
                  · rw [if_neg l6] at h
                    exact storeValid_txMail (withNoOutput_ok h) hv
                · rw [if_neg e6] at h
                  by_cases e7 : (goSplit '|' line)[4]! = "tx-rcpt"
                  · rw [if_pos e7] at h
                    by_cases l7 : (goSplit '|' line).length < 9
                    · rw [if_pos l7] at h
                      cases h
                    · rw [if_neg l7] at h
                      exact storeValid_txRcpt (withNoOutput_ok h) hv
                  · rw [if_neg e7] at h
                    by_cases e8 : (goSplit '|' line)[4]! = "tx-data"
                    · rw [if_pos e8] at h
                      by_cases l8 : (goSplit '|' line).length < 8
                      · rw [if_pos l8] at h
                        cases h
                      · rw [if_neg l8] at h
                        exact storeValid_txData (withNoOutput_ok h) hv
                    · rw [if_neg e8] at h
                      by_cases e9 : (goSplit '|' line)[4]! = "tx-commit"
                      · rw [if_pos e9] at h
                        by_cases l9 : (goSplit '|' line).length < 8
                        · rw [if_pos l9] at h
                          cases h
                        · rw [if_neg l9] at h
                          exact storeValid_txCommit (withNoOutput_ok h) hv
                      · rw [if_neg e9] at h
                        by_cases e10 : (goSplit '|' line)[4]! = "tx-rollback"
                        · rw [if_pos e10] at h
                          by_cases l10 : (goSplit '|' line).length < 7
                          · rw [if_pos l10] at h
                            cases h
                          · rw [if_neg l10] at h
                            exact storeValid_txRollback (withNoOutput_ok h) hv
                        · rw [if_neg e10] at h
                          obtain ⟨hf', _⟩ := okPair_inj h
                          rw [← hf']
                          exact hv
    · rw [if_neg h0] at h
      by_cases hfil : (goSplit '|' line)[0]! = "filter"
      · rw [if_pos hfil] at h
        by_cases p6 : (goSplit '|' line).length ≤ 6
        · rw [if_pos p6] at h
          cases h
        · rw [if_neg p6] at h
          by_cases hph : (goSplit '|' line)[4]! = "data-line"
          · rw [if_pos hph] at h
            by_cases p8 : (goSplit '|' line).length < 8
            · rw [if_pos p8] at h
              cases h
            · rw [if_neg p8] at h
              exact storeValid_dataLine h hv
          · rw [if_neg hph] at h
            obtain ⟨hf', _⟩ := okPair_inj h
            rw [← hf']
            exact hv
      · rw [if_neg hfil] at h
        cases h

theorem newFilter_storeValid {S : Type} (f : Filter S) (h : f.Sessions = []) :
    storeValid f := by
  intro p hp
  rw [h] at hp
  simp at hp

theorem configLoop_preserves_events {S : Type} [Inhabited S] (lines : List String)
    (f f1 : Filter S) (rest : List String)
    (h : configLoop f lines = .ok (f1, rest)) :
    f1.reports = f.reports ∧ f1.filters = f.filters := by
  induction lines generalizing f with
  | nil => simp [configLoop] at h
  | cons line tail ih =>
    rw [configLoop] at h
    by_cases h2 : (goSplit '|' line).length < 2
    · rw [if_pos h2] at h
      cases h
    · rw [if_neg h2] at h
      by_cases hp : (goSplit '|' line)[1]! = "protocol"
      · rw [if_pos hp] at h
        by_cases h3 : (goSplit '|' line).length < 3
        · rw [if_pos h3] at h
          cases h
        · rw [if_neg h3] at h
          simpa using ih _ h
      · rw [if_neg hp] at h
        by_cases hsub : (goSplit '|' line)[1]! = "subsystem"
        · rw [if_pos hsub] at h
          by_cases h3 : (goSplit '|' line).length < 3
          · rw [if_pos h3] at h
            cases h
          · rw [if_neg h3] at h
            simpa using ih _ h
        · rw [if_neg hsub] at h
          by_cases hr : (goSplit '|' line)[1]! = "ready"
          · rw [if_pos hr] at h
            cases h
            exact ⟨rfl, rfl⟩
          · rw [if_neg hr] at h
            exact ih _ h

theorem dataLine_passthrough {S : Type} [Inhabited S]
    (g : List String → S → String) (pf : String → Option S) (bf : String → Option String)
    (f : Filter S) (sid token line : String) (session : Session S) (message : Message S)
    (hs : mapFind sid f.Sessions = some session)
    (hm : mapFind session.DataMessage session.Messages = some message)
    (hcase : message.InHeader = false ∨
      (hasPrefixGo "X-Spam-Score: " line = false ∧ hasPrefixGo "X-Spam: " line = false ∧
       hasPrefixGo "X-Spam-Class: " line = false ∧ hasPrefixGo "To: " line = false ∧
       hasPrefixGo "From: " line = false ∧ isBlankGo line = false)) :
    Except.map Prod.snd (dataLine g pf bf f sid token line) =
      .ok ["filter-dataline|" ++ sid ++ "|" ++ token ++ "|" ++ line] := by
  rw [dataLine]
  simp only [getSession, getSessionMessage, hs, hm]
  rcases hcase with hin | ⟨h1, h2, h3, h4, h5, hb⟩
  · simp only [hin, Bool.false_eq_true, if_false]
    rfl
  · cases hin : message.InHeader with
    | false =>
      simp only [hin, Bool.false_eq_true, if_false]
      rfl
    | true =>
      simp only [hin, if_true, hb, Bool.false_eq_true, if_false]
      rw [filterDataLine_ordinary g pf bf message line h1 h2 h3 h4 h5 hb]
      rfl

theorem report_unknown_sid_fatal {S : Type} [Inhabited S]
    (g : List String → S → String) (pf : String → Option S) (bf : String → Option String)
    (f : Filter S) (line : String)
    (h6 : 6 ≤ (goSplit '|' line).length)
    (h0 : (goSplit '|' line)[0]! = "report")
    (h4 : (goSplit '|' line)[4]! ∈ ["link-disconnect", "link-auth", "tx-reset", "tx-begin",
      "tx-mail", "tx-rcpt", "tx-data", "tx-commit", "tx-rollback"])
    (h5 : mapFind (goSplit '|' line)[5]! f.Sessions = none) :
    isFatal (runLine g pf bf f line) = true := by
  rw [runLine]
  generalize hat : goSplit '|' line = atoms at h6 h0 h4 h5 ⊢
  rw [runAtoms, if_neg (by omega)]
  simp only [h0, if_true, if_false]
  simp only [List.mem_cons, List.not_mem_nil, or_false] at h4
  rcases h4 with h4 | h4 | h4 | h4 | h4 | h4 | h4 | h4 | h4 <;>
    simp only [h4, String.reduceEq, if_true, if_false]
  · rw [isFatal_withNoOutput]
    simp only [linkDisconnect, getSession, h5]
    rfl
  · by_cases hlen : atoms.length < 8
    · rw [if_pos hlen]
      rfl
    · rw [if_neg hlen, isFatal_withNoOutput]
      simp only [linkAuth, getSession, h5]
      rfl
  · by_cases hlen : atoms.length < 7
    · rw [if_pos hlen]
      rfl
    · rw [if_neg hlen, isFatal_withNoOutput]
      simp only [txReset, getSessionMessage, getSession, h5]
      rfl
  · by_cases hlen : atoms.length < 7
    · rw [if_pos hlen]
      rfl
    · rw [if_neg hlen, isFatal_withNoOutput]
      simp only [txBegin, getSession, h5]
      rfl
  · by_cases hlen : atoms.length < 9
    · rw [if_pos hlen]
      rfl
    · rw [if_neg hlen, isFatal_withNoOutput]
      simp only [txMail, getSessionMessage, getSession, h5]
      rfl
  · by_cases hlen : atoms.length < 9
    · rw [if_pos hlen]
      rfl
    · rw [if_neg hlen, isFatal_withNoOutput]
      simp only [txRcpt, getSessionMessage, getSession, h5]
      rfl
  · by_cases hlen : atoms.length < 8
    · rw [if_pos hlen]
      rfl
    · rw [if_neg hlen, isFatal_withNoOutput]
      simp only [txData, getSessionMessage, getSession, h5]
      rfl
  · by_cases hlen : atoms.length < 8
    · rw [if_pos hlen]
      rfl
    · rw [if_neg hlen, isFatal_withNoOutput]
      simp only [txCommit, getSessionMessage, getSession, h5]
      rfl
  · by_cases hlen : atoms.length < 7
    · rw [if_pos hlen]
      rfl
    · rw [if_neg hlen, isFatal_withNoOutput]
      simp only [txRollback, getSessionMessage, getSession, h5]
      rfl

theorem dataLine_unknown_sid_fatal {S : Type} [Inhabited S]
    (g : List String → S → String) (pf : String → Option S) (bf : String → Option String)
    (f : Filter S) (line : String)
    (h6 : 6 ≤ (goSplit '|' line).length)
    (h0 : (goSplit '|' line)[0]! = "filter")
    (h4 : (goSplit '|' line)[4]! = "data-line")
    (h5 : mapFind (goSplit '|' line)[5]! f.Sessions = none) :
    isFatal (runLine g pf bf f line) = true := by
  rw [runLine]
  generalize hat : goSplit '|' line = atoms at h6 h0 h4 h5 ⊢
  rw [runAtoms, if_neg (by omega)]
  simp only [h0, String.reduceEq, if_true, if_false]
  by_cases hlen : atoms.length ≤ 6
  · rw [if_pos hlen]
    rfl
  · rw [if_neg hlen]
    simp only [h4, String.reduceEq, if_true, if_false]
    by_cases hlen8 : atoms.length < 8
    · rw [if_pos hlen8]
      rfl
    · rw [if_neg hlen8]
      simp only [dataLine, getSession, h5]
      rfl

theorem linkConnect_dup_fatal {S : Type} [Inhabited S]
    (g : List String → S → String) (pf : String → Option S) (bf : String → Option String)
    (f : Filter S) (line : String) (session : Session S)
    (h6 : 6 ≤ (goSplit '|' line).length)
    (h0 : (goSplit '|' line)[0]! = "report")
    (h4 : (goSplit '|' line)[4]! = "link-connect")
    (h5 : mapFind (goSplit '|' line)[5]! f.Sessions = some session) :
    isFatal (runLine g pf bf f line) = true := by
  rw [runLine]
  generalize hat : goSplit '|' line = atoms at h6 h0 h4 h5 ⊢
  rw [runAtoms, if_neg (by omega)]
  simp only [h0, h4, String.reduceEq, if_true, if_false]
  by_cases hlen : atoms.length < 10
  · rw [if_pos hlen]
    rfl
  · rw [if_neg hlen, isFatal_withNoOutput]
    simp only [linkConnect, h5]
    rfl

theorem midEvent_unknown_mid_fatal {S : Type} [Inhabited S]
    (g : List String → S → String) (pf : String → Option S) (bf : String → Option String)
    (f : Filter S) (line : String) (session : Session S)
    (h7 : 7 ≤ (goSplit '|' line).length)
    (h0 : (goSplit '|' line)[0]! = "report")
    (h4 : (goSplit '|' line)[4]! ∈ ["tx-reset", "tx-mail", "tx-rcpt", "tx-data", "tx-commit",
      "tx-rollback"])
    (h5 : mapFind (goSplit '|' line)[5]! f.Sessions = some session)
    (hmid : mapFind (goSplit '|' line)[6]! session.Messages = none) :
    isFatal (runLine g pf bf f line) = true := by
  rw [runLine]
  generalize hat : goSplit '|' line = atoms at h7 h0 h4 h5 hmid ⊢
  rw [runAtoms, if_neg (by omega)]
  simp only [h0, if_true, if_false]
  simp only [List.mem_cons, List.not_mem_nil, or_false] at h4
  rcases h4 with h4 | h4 | h4 | h4 | h4 | h4 <;>
    simp only [h4, String.reduceEq, if_true, if_false]
  · by_cases hlen : atoms.length < 7
    · rw [if_pos hlen]
      rfl
    · rw [if_neg hlen, isFatal_withNoOutput]
      simp only [txReset, getSessionMessage, getSession, h5, hmid]
      rfl
  · by_cases hlen : atoms.length < 9
    · rw [if_pos hlen]
      rfl
    · rw [if_neg hlen, isFatal_withNoOutput]
      simp only [txMail, getSessionMessage, getSession, h5, hmid]
      rfl
  · by_cases hlen : atoms.length < 9
    · rw [if_pos hlen]
      rfl
    · rw [if_neg hlen, isFatal_withNoOutput]
      simp only [txRcpt, getSessionMessage, getSession, h5, hmid]
      rfl
  · by_cases hlen : atoms.length < 8
    · rw [if_pos hlen]
      rfl
    · rw [if_neg hlen, isFatal_withNoOutput]
      simp only [txData, getSessionMessage, getSession, h5, hmid]
      rfl
  · by_cases hlen : atoms.length < 8
    · rw [if_pos hlen]
      rfl
    · rw [if_neg hlen, isFatal_withNoOutput]
      simp only [txCommit, getSessionMessage, getSession, h5, hmid]
      rfl
  · by_cases hlen : atoms.length < 7
    · rw [if_pos hlen]
      rfl
    · rw [if_neg hlen, isFatal_withNoOutput]
      simp only [txRollback, getSessionMessage, getSession, h5, hmid]
      rfl

theorem txBegin_dup_fatal {S : Type} [Inhabited S]
    (g : List String → S → String) (pf : String → Option S) (bf : String → Option String)
    (f : Filter S) (line : String) (session : Session S) (m : Message S)
    (h7 : 7 ≤ (goSplit '|' line).length)
    (h0 : (goSplit '|' line)[0]! = "report")
    (h4 : (goSplit '|' line)[4]! = "tx-begin")
    (h5 : mapFind (goSplit '|' line)[5]! f.Sessions = some session)
    (hdup : mapFind (goSplit '|' line)[6]! session.Messages = some m) :
    isFatal (runLine g pf bf f line) = true := by
  rw [runLine]
  generalize hat : goSplit '|' line = atoms at h7 h0 h4 h5 hdup ⊢
  rw [runAtoms, if_neg (by omega)]
  simp only [h0, h4, String.reduceEq, if_true, if_false]
  rw [if_neg (by omega), isFatal_withNoOutput]
  simp only [txBegin, getSession, h5, hdup]
  rfl

theorem storeValid_first_To {S : Type} {f : Filter S} {sid : String} {session : Session S}
    {mid : String} {message : Message S}
    (hv : storeValid f)
    (hs : mapFind sid f.Sessions = some session)
    (hm : mapFind mid session.Messages = some message)
    (hTo : message.To ≠ []) :
    emailMatch message.To[0]! = true := by
  have hmem : message.To[0]! ∈ message.To := by
    cases hTo' : message.To with
    | nil => exact absurd hTo' hTo
    | cons a rest =>
      simp [hTo']
  exact hv (sid, session) (mapFind_mem hs) (mid, message) (mapFind_mem hm) _ hmem

/-! ## Claim theorems (continued) -/

/-- C3: a data-line filter event consumed while the active message is not
in-header, or in-header but matching no special-cased prefix and not blank,
yields exactly one `filter-dataline` output line whose content is
byte-for-byte the input line's text after the seventh field separator
(embedded `'|'` characters included, via `lastAtom`'s offset computation) and
whose session and token fields are copied verbatim. -/
theorem c3_passthrough_verbatim {S : Type} [Inhabited S]
    (g : List String → S → String) (pf : String → Option S) (bf : String → Option String)
    (f : Filter S) (proto ts subsys sid token rest : String)
    (session : Session S) (message : Message S)
    (hp : '|' ∉ proto.data) (hts : '|' ∉ ts.data) (hsub : '|' ∉ subsys.data)
    (hsid : '|' ∉ sid.data) (htok : '|' ∉ token.data)
    (hs : mapFind sid f.Sessions = some session)
    (hm : mapFind session.DataMessage session.Messages = some message)
    (hcase : message.InHeader = false ∨
      (hasPrefixGo "X-Spam-Score: " rest = false ∧ hasPrefixGo "X-Spam: " rest = false ∧
       hasPrefixGo "X-Spam-Class: " rest = false ∧ hasPrefixGo "To: " rest = false ∧
       hasPrefixGo "From: " rest = false ∧ isBlankGo rest = false)) :
    Except.map Prod.snd
        (runLine g pf bf f (barJoin ["filter", proto, ts, subsys, "data-line", sid, token] rest)) =
      .ok ["filter-dataline|" ++ sid ++ "|" ++ token ++ "|" ++ rest] := by
  have hfields : ∀ a ∈ ["filter", proto, ts, subsys, "data-line", sid, token], '|' ∉ a.data := by
    intro a ha
    simp only [List.mem_cons, List.not_mem_nil, or_false] at ha
    rcases ha with rfl | rfl | rfl | rfl | rfl | rfl | rfl
    · decide
    · exact hp
    · exact hts
    · exact hsub
    · decide
    · exact hsid
    · exact htok
  have hsplit := goSplit_barJoin ["filter", proto, ts, subsys, "data-line", sid, token] rest hfields
  have htail : 0 < (goSplit '|' rest).length := by
    rw [goSplit]
    simpa using List.length_pos.mpr (splitOnChar_ne_nil '|' rest.data)
  have hlast := lastAtom_barJoin ["filter", proto, ts, subsys, "data-line", sid, token] rest
    (goSplit '|' rest)
  rw [runLine, hsplit, runAtoms]
  rw [if_neg (by simp only [List.length_append, List.length_cons, List.length_nil]; omega)]
  rw [if_neg (by simp)]
  rw [if_pos (by simp)]
  rw [if_neg (by simp only [List.length_append, List.length_cons, List.length_nil]; omega)]
  simp only [List.cons_append, List.nil_append, List.getElem!_cons_succ, List.getElem!_cons_zero]
  rw [if_pos trivial]
  rw [if_neg (by simp only [List.length_cons]; omega)]
  have hlast' : lastAtom (barJoin ["filter", proto, ts, subsys, "data-line", sid, token] rest)
      ("filter" :: proto :: ts :: subsys :: "data-line" :: sid :: token :: goSplit '|' rest) 7 = rest := by
    simpa using hlast
  rw [hlast']
  exact dataLine_passthrough g pf bf f sid token rest session message hs hm hcase

/-- Witness for C3: a body line containing the protocol delimiter is
reproduced byte-for-byte, with session and token copied. -/
theorem c3_passthrough_verbatim_witness :
    Except.map Prod.snd
        (runLine gW parseDecimal bfW fBody
          (barJoin ["filter", "0.7", "0000000000.000000", "smtp-in", "data-line", "s1", "tok"]
            "body with | embedded")) =
      .ok ["filter-dataline|" ++ "s1" ++ "|" ++ "tok" ++ "|" ++ "body with | embedded"] :=
  c3_passthrough_verbatim gW parseDecimal bfW fBody "0.7" "0000000000.000000" "smtp-in" "s1" "tok"
    "body with | embedded" sessBody mBody (by decide) (by decide) (by decide) (by decide)
    (by decide) (by decide) (by decide) (Or.inl (by decide))

/-- C4: after any completed handshake, the registration phase emits exactly
one `register|report|subsystem|event` line per report event in the fixed
order link-connect, link-disconnect, link-auth, tx-reset, tx-begin, tx-mail,
tx-rcpt, tx-data, tx-commit, tx-rollback, then the single
`register|filter|subsystem|data-line` line, then `register|ready`, regardless
of the handshake's field values. -/
theorem c4_registration_order {S : Type} [Inhabited S] (lines : List String) (f1 : Filter S)
    (rest : List String)
    (h : configLoop newFilter lines = .ok (f1, rest)) :
    registerLines f1 =
      ["register|report|" ++ f1.Subsystem ++ "|" ++ "link-connect",
       "register|report|" ++ f1.Subsystem ++ "|" ++ "link-disconnect",
       "register|report|" ++ f1.Subsystem ++ "|" ++ "link-auth",
       "register|report|" ++ f1.Subsystem ++ "|" ++ "tx-reset",
       "register|report|" ++ f1.Subsystem ++ "|" ++ "tx-begin",
       "register|report|" ++ f1.Subsystem ++ "|" ++ "tx-mail",
       "register|report|" ++ f1.Subsystem ++ "|" ++ "tx-rcpt",
       "register|report|" ++ f1.Subsystem ++ "|" ++ "tx-data",
       "register|report|" ++ f1.Subsystem ++ "|" ++ "tx-commit",
       "register|report|" ++ f1.Subsystem ++ "|" ++ "tx-rollback",
       "register|filter|" ++ f1.Subsystem ++ "|" ++ "data-line",
       "register|ready"] := by
  obtain ⟨hr, hf⟩ := configLoop_preserves_events lines newFilter f1 rest h
  rw [registerLines, hr, hf]
  rfl

/-- Witness for C4: the fixture handshake sets subsystem `smtp-in` and the
registration lines come out in the fixed order. -/
theorem c4_registration_order_witness :
    configLoop (newFilter : Filter (Int × Nat))
        ["config|smtpd-version|7.7.0", "config|protocol|0.7", "config|subsystem|smtp-in", "config|ready"] =
      .ok ({ (newFilter : Filter (Int × Nat)) with Protocol := "0.7", Subsystem := "smtp-in" }, [])
    ∧ registerLines { (newFilter : Filter (Int × Nat)) with Protocol := "0.7", Subsystem := "smtp-in" } =
      ["register|report|smtp-in|link-connect",
       "register|report|smtp-in|link-disconnect",
       "register|report|smtp-in|link-auth",
       "register|report|smtp-in|tx-reset",
       "register|report|smtp-in|tx-begin",
       "register|report|smtp-in|tx-mail",
       "register|report|smtp-in|tx-rcpt",
       "register|report|smtp-in|tx-data",
       "register|report|smtp-in|tx-commit",
       "register|report|smtp-in|tx-rollback",
       "register|filter|smtp-in|data-line",
       "register|ready"] := by
  have hc : configLoop (newFilter : Filter (Int × Nat))
      ["config|smtpd-version|7.7.0", "config|protocol|0.7", "config|subsystem|smtp-in", "config|ready"] =
      .ok ({ (newFilter : Filter (Int × Nat)) with Protocol := "0.7", Subsystem := "smtp-in" }, []) := by
    decide
  refine ⟨hc, ?_⟩
  rw [c4_registration_order _ _ _ hc]
  decide

/-- C5: main-loop lifecycle errors are fatal — a session-referencing report
event (all report events except the session-creating link-connect) or a
data-line filter event naming an unknown session; a link-connect naming an
existing session; a transaction or data event (tx-reset, tx-mail, tx-rcpt,
tx-data, tx-commit, tx-rollback) naming an unknown message under its
session; and a tx-begin naming an existing message.  Unregistered event
names are not main-loop events (the dispatcher never sees them from a
conforming peer) and are outside this claim. -/
theorem c5_lifecycle_fatal {S : Type} [Inhabited S]
    (g : List String → S → String) (pf : String → Option S) (bf : String → Option String)
    (f : Filter S) :
    (∀ line, 6 ≤ (goSplit '|' line).length → (goSplit '|' line)[0]! = "report" →
      (goSplit '|' line)[4]! ∈ ["link-disconnect", "link-auth", "tx-reset", "tx-begin",
        "tx-mail", "tx-rcpt", "tx-data", "tx-commit", "tx-rollback"] →
      mapFind (goSplit '|' line)[5]! f.Sessions = none →
      isFatal (runLine g pf bf f line) = true)
    ∧ (∀ line, 6 ≤ (goSplit '|' line).length → (goSplit '|' line)[0]! = "filter" →
      (goSplit '|' line)[4]! = "data-line" →
      mapFind (goSplit '|' line)[5]! f.Sessions = none →
      isFatal (runLine g pf bf f line) = true)
    ∧ (∀ line session, 6 ≤ (goSplit '|' line).length → (goSplit '|' line)[0]! = "report" →
      (goSplit '|' line)[4]! = "link-connect" →
      mapFind (goSplit '|' line)[5]! f.Sessions = some session →
      isFatal (runLine g pf bf f line) = true)
    ∧ (∀ line session, 7 ≤ (goSplit '|' line).length → (goSplit '|' line)[0]! = "report" →
      (goSplit '|' line)[4]! ∈ ["tx-reset", "tx-mail", "tx-rcpt", "tx-data", "tx-commit",
        "tx-rollback"] →
      mapFind (goSplit '|' line)[5]! f.Sessions = some session →
      mapFind (goSplit '|' line)[6]! session.Messages = none →
      isFatal (runLine g pf bf f line) = true)
    ∧ (∀ line session m, 7 ≤ (goSplit '|' line).length → (goSplit '|' line)[0]! = "report" →
      (goSplit '|' line)[4]! = "tx-begin" →
      mapFind (goSplit '|' line)[5]! f.Sessions = some session →
      mapFind (goSplit '|' line)[6]! session.Messages = some m →
      isFatal (runLine g pf bf f line) = true) :=
  ⟨fun line h6 h0 h4 h5 => report_unknown_sid_fatal g pf bf f line h6 h0 h4 h5,
   fun line h6 h0 h4 h5 => dataLine_unknown_sid_fatal g pf bf f line h6 h0 h4 h5,
   fun line session h6 h0 h4 h5 => linkConnect_dup_fatal g pf bf f line session h6 h0 h4 h5,
   fun line session h7 h0 h4 h5 hmid =>
     midEvent_unknown_mid_fatal g pf bf f line session h7 h0 h4 h5 hmid,
   fun line session m h7 h0 h4 h5 hdup =>
     txBegin_dup_fatal g pf bf f line session m h7 h0 h4 h5 hdup⟩

/-- Witness for C5: five concrete fatal events against a store holding the
single session `s1` with message `m1` — unknown session for a report, unknown
session for data-line, duplicate link-connect, unknown message for tx-mail,
duplicate tx-begin. -/
theorem c5_lifecycle_fatal_witness :
    isFatal (runLine gW parseDecimal bfW fW "report|0.7|0|smtp-in|link-disconnect|nosuch") = true
    ∧ isFatal (runLine gW parseDecimal bfW fW "filter|0.7|0|smtp-in|data-line|nosuch|tok|x") = true
    ∧ isFatal (runLine gW parseDecimal bfW fW "report|0.7|0|smtp-in|link-connect|s1|h|pass|a|b") = true
    ∧ isFatal (runLine gW parseDecimal bfW fW "report|0.7|0|smtp-in|tx-mail|s1|nomsg|ok|a@b.example") = true
    ∧ isFatal (runLine gW parseDecimal bfW fW "report|0.7|0|smtp-in|tx-begin|s1|m1") = true :=
  ⟨(c5_lifecycle_fatal gW parseDecimal bfW fW).1 _ (by decide) (by decide) (by decide) (by decide),
   (c5_lifecycle_fatal gW parseDecimal bfW fW).2.1 _ (by decide) (by decide) (by decide) (by decide),
   (c5_lifecycle_fatal gW parseDecimal bfW fW).2.2.1 _ sessW (by decide) (by decide) (by decide)
     (by decide),
   (c5_lifecycle_fatal gW parseDecimal bfW fW).2.2.2.1 _ sessW (by decide) (by decide) (by decide)
     (by decide) (by decide),
   (c5_lifecycle_fatal gW parseDecimal bfW fW).2.2.2.2 _ sessW mNoScore (by decide) (by decide)
     (by decide) (by decide) (by decide)⟩

/-- C6 (amended): during the handshake, a line with fewer than two
`'|'`-fields is a fatal configuration error and reaching end of stream
without the ready marker is fatal; but a well-formed line whose second field
is none of `protocol`, `subsystem`, `ready` is silently ignored, not fatal
(the claim's "any other line is fatal" does not hold, see
`c6_config_counterexample`). -/
theorem c6_config_amended {S : Type} [Inhabited S] :
    (∀ (f : Filter S) (line : String) (rest : List String),
        (goSplit '|' line).length < 2 → isFatal (configLoop f (line :: rest)) = true)
    ∧ (∀ f : Filter S, isFatal (configLoop f []) = true)
    ∧ (∀ (f : Filter S) (line : String) (rest : List String),
        2 ≤ (goSplit '|' line).length →
        (goSplit '|' line)[1]! ≠ "protocol" → (goSplit '|' line)[1]! ≠ "subsystem" →
        (goSplit '|' line)[1]! ≠ "ready" →
        configLoop f (line :: rest) = configLoop f rest) := by
  refine ⟨?_, ?_, ?_⟩
  · intro f line rest h
    rw [configLoop]
    simp [h, isFatal]
  · intro f
    rfl
  · intro f line rest h2 hp hsub hr
    have h2' : ¬((goSplit '|' line).length < 2) := by omega
    rw [configLoop]
    simp [h2', hp, hsub, hr]

/-- Witness for C6 (amended): a separator-free line is fatal, end of stream
is fatal, and the fixture's `config|smtp-session-timeout|300` line is
skipped. -/
theorem c6_config_amended_witness :
    isFatal (configLoop (newFilter : Filter (Int × Nat)) ["noseparator"]) = true
    ∧ isFatal (configLoop (newFilter : Filter (Int × Nat)) []) = true
    ∧ configLoop (newFilter : Filter (Int × Nat)) ["config|smtp-session-timeout|300", "config|ready"] =
        configLoop (newFilter : Filter (Int × Nat)) ["config|ready"] :=
  ⟨c6_config_amended.1 newFilter "noseparator" [] (by decide),
   c6_config_amended.2.1 newFilter,
   c6_config_amended.2.2 newFilter "config|smtp-session-timeout|300" ["config|ready"]
     (by decide) (by decide) (by decide) (by decide)⟩

/-- Counterexample to C6 as stated: `config|smtp-version|7.7.0` is neither a
`config|protocol` line, nor a `config|subsystem` line, nor the ready marker,
yet the handshake accepts it without a fatal error (the repository's own
test fixture sends exactly such lines). -/
theorem c6_config_counterexample :
    configLoop (newFilter : Filter (Int × Nat)) ["config|smtp-version|7.7.0", "config|ready"] =
      .ok (newFilter, [])
    ∧ (goSplit '|' "config|smtp-version|7.7.0")[1]! ≠ "protocol"
    ∧ (goSplit '|' "config|smtp-version|7.7.0")[1]! ≠ "subsystem"
    ∧ (goSplit '|' "config|smtp-version|7.7.0")[1]! ≠ "ready" :=
  ⟨by decide, by decide, by decide, by decide⟩

/-- C10 (amended): in a session whose active data-message identifier is
still the empty string and which holds no message under the empty
identifier, any data-line event is fatal: the handler resolves the message
through `Session.DataMessage` and the lookup fails as an unknown message.
(Without the no-empty-message side condition the claim fails, see
`c10_dataline_counterexample`: a tx-begin carrying an empty message id
creates a message that the empty DataMessage then resolves.) -/
theorem c10_empty_data_message_fatal {S : Type} [Inhabited S]
    (g : List String → S → String) (pf : String → Option S) (bf : String → Option String)
    (f : Filter S) (sid token line : String) (session : Session S)
    (hs : mapFind sid f.Sessions = some session)
    (hdm : session.DataMessage = "")
    (hnone : mapFind "" session.Messages = none) :
    isFatal (dataLine g pf bf f sid token line) = true := by
  rw [dataLine]
  simp only [getSession, getSessionMessage, hs, hdm, hnone]
  rfl

/-- Witness for C10 (amended): a fresh session with no messages and empty
DataMessage makes any data-line event fatal. -/
theorem c10_empty_data_message_fatal_witness :
    isFatal (dataLine gW parseDecimal bfW fEmptyDM "s1" "tok" "hello") = true :=
  c10_empty_data_message_fatal gW parseDecimal bfW fEmptyDM "s1" "tok" "hello" sessEmptyDM
    (by decide) (by decide) (by decide)

/-- Counterexample to C10 as stated: a run with no tx-data event at all —
link-connect, then tx-begin with an EMPTY message identifier, then a
data-line — is not fatal: the data-line passes through, even though the
session's DataMessage is still the empty string. -/
theorem c10_dataline_counterexample :
    Except.map Prod.snd (runLines gW parseDecimal bfW newFilter
      ["report|0.7|0|smtp-in|link-connect|s1|host|pass|src|dst",
       "report|0.7|0|smtp-in|tx-begin|s1|",
       "filter|0.7|0|smtp-in|data-line|s1|tok|hello"]) = .ok ["filter-dataline|s1|tok|hello"]
    ∧ Except.map (fun p => (mapFind "s1" p.1.Sessions).map Session.DataMessage)
        (runLines gW parseDecimal bfW newFilter
          ["report|0.7|0|smtp-in|link-connect|s1|host|pass|src|dst",
           "report|0.7|0|smtp-in|tx-begin|s1|"]) = .ok (some "") :=
  ⟨by decide, by decide⟩

end SpamClass
